import Mathlib

set_option maxHeartbeats 1000000

/-!
# A shallow embedding of the rust-css-color parser

The CSS color parser of `src/lib.rs` is embedded as executable Lean
definitions.  Input byte slices (`&[u8]`) become `List Nat` (one entry per
byte); fallible parsers returning `Result<_, ()>` become `Option`-valued
functions; the parse cursor is the returned suffix of the input list.

Rust `f32` values are modelled as exact rationals `ℚ`: every numeral accepted
by the `<number>` token grammar denotes an exact decimal rational (never a NaN
or an infinity), and the parser's arithmetic on channel values is modelled
exactly, without rounding to binary32.  A separate type `F32` extends `ℚ` with
the IEEE-754 special values in order to state claims about the NaN behaviour
of the clamp function itself.
-/

/-- The bytes of an ASCII string literal.  All concrete inputs used below are
ASCII, where the UTF-8 encoding coincides with the character codes. -/
def bs (s : String) : List Nat := s.data.map Char.toNat

/-- A color in the sRGB color space (`struct Srgb`), components modelled as
exact rationals. -/
structure Srgb where
  red : ℚ
  green : ℚ
  blue : ℚ
  alpha : ℚ
deriving DecidableEq, Repr

/-- `Srgb::from_rgba8`: 8-bit channels are divided by 255. -/
def Srgb.from_rgba8 (red green blue alpha : Nat) : Srgb :=
  ⟨(red : ℚ) / 255, (green : ℚ) / 255, (blue : ℚ) / 255, (alpha : ℚ) / 255⟩

/-- `Srgb::from_rgb8`. -/
def Srgb.from_rgb8 (red green blue : Nat) : Srgb :=
  Srgb.from_rgba8 red green blue 255

/-- `const NONE: f32 = 0_f32`. -/
def NONE : ℚ := 0

/-- `is_name_start`: ASCII letter, `_`, or any non-ASCII byte. -/
def is_name_start (c : Nat) : Bool :=
  decide ((97 ≤ c ∧ c ≤ 122) ∨ (65 ≤ c ∧ c ≤ 90) ∨ c = 95 ∨ 128 ≤ c)

/-- `is_name`: name-continuation bytes additionally allow digits and `-`. -/
def is_name (c : Nat) : Bool :=
  decide ((97 ≤ c ∧ c ≤ 122) ∨ (65 ≤ c ∧ c ≤ 90) ∨ (48 ≤ c ∧ c ≤ 57) ∨
    c = 95 ∨ c = 45 ∨ 128 ≤ c)

/-- `is_whitespace`: space, `\n`, `\t`, `\r`, form feed. -/
def is_whitespace (c : Nat) : Bool :=
  decide (c = 32 ∨ c = 10 ∨ c = 9 ∨ c = 13 ∨ c = 12)

/-- `digit`. -/
def digit (c : Nat) : Option Nat :=
  if 48 ≤ c ∧ c ≤ 57 then some (c - 48) else none

/-- `hex_digit`. -/
def hex_digit (c : Nat) : Option Nat :=
  if 48 ≤ c ∧ c ≤ 57 then some (c - 48)
  else if 65 ≤ c ∧ c ≤ 70 then some (c - 65 + 10)
  else if 97 ≤ c ∧ c ≤ 102 then some (c - 97 + 10)
  else none

/-- `skip_ws`. -/
def skip_ws : List Nat → List Nat
  | [] => []
  | c :: rest => if is_whitespace c then skip_ws rest else c :: rest

/-- `consume_byte`. -/
def consume_byte (input : List Nat) (b : Nat) : Option (List Nat) :=
  match input with
  | c :: rest => if c = b then some rest else none
  | [] => none

/-- `u8::to_ascii_lowercase`. -/
def to_ascii_lowercase (c : Nat) : Nat :=
  if 65 ≤ c ∧ c ≤ 90 then c + 32 else c

/-- `<[u8]>::eq_ignore_ascii_case`. -/
def eq_ignore_ascii_case (a b : List Nat) : Bool :=
  a.map to_ascii_lowercase == b.map to_ascii_lowercase

/-- `consume_function`: a case-insensitive function name followed by `(`,
with any following whitespace also consumed. -/
def consume_function (input name : List Nat) : Option (List Nat) :=
  let n := name.length
  if eq_ignore_ascii_case (input.take n) name && decide (n + 1 ≤ input.length)
      && (input[n]? == some 40) then
    some (skip_ws (input.drop (n + 1)))
  else
    none

/-- `input.get(n).filter(|c| is_name(**c)).is_none()`. -/
def no_name_at (input : List Nat) (n : Nat) : Bool :=
  match input[n]? with
  | some c => ! is_name c
  | none => true

/-- `consume_name`: a case-insensitive keyword not followed by a
name-continuation byte. -/
def consume_name (input name : List Nat) : Option (List Nat) :=
  let n := name.length
  if decide (n ≤ input.length) && eq_ignore_ascii_case (input.take n) name
      && no_name_at input n then
    some (input.drop n)
  else
    none

/-- `consume_none`. -/
def consume_none (input : List Nat) : Option (List Nat) :=
  consume_name input [110, 111, 110, 101]

/-- `skip_sign` (local to `consume_number`). -/
def skip_sign (input : List Nat) : List Nat :=
  match input with
  | 43 :: rest => rest
  | 45 :: rest => rest
  | _ => input

/-- The while-loop of `consume_digits`. -/
def skip_digits : List Nat → List Nat
  | [] => []
  | c :: rest => if (digit c).isSome then skip_digits rest else c :: rest

/-- `consume_digits`: at least one decimal digit, consuming the longest run. -/
def consume_digits (input : List Nat) : Option (List Nat) :=
  match input with
  | c :: rest => if (digit c).isSome then some (skip_digits rest) else none
  | [] => none

/-- `consume_number`: the CSS `<number>` token grammar. -/
def consume_number (input : List Nat) : Option (List Nat) := do
  let input := skip_sign input
  let input ←
    match input[0]? with
    | some 46 => some input
    | _ => consume_digits input
  let input ←
    match input[0]? with
    | some 46 => consume_digits (input.drop 1)
    | _ => some input
  match input[0]? with
  | some 69 => consume_digits (skip_sign (input.drop 1))
  | some 101 => consume_digits (skip_sign (input.drop 1))
  | _ => some input

/-- Numeric value of a run of decimal-digit bytes. -/
def digits_val (l : List Nat) : Nat :=
  l.foldl (fun acc c => acc * 10 + (c - 48)) 0

/-- The value of a token matching the `<number>` grammar.  This models the
`str::parse::<f32>` call of `parse_number` with exact rational semantics:
the decimal literal is evaluated exactly, with no rounding to binary32 and no
overflow saturation. -/
def eval_number_token (tok : List Nat) : ℚ :=
  let sign : ℚ := match tok[0]? with | some 45 => -1 | _ => 1
  let tok := skip_sign tok
  let mant := tok.takeWhile (fun c => !(c == 101 || c == 69))
  let expPart := (tok.dropWhile (fun c => !(c == 101 || c == 69))).drop 1
  let esign : Int := match expPart[0]? with | some 45 => -1 | _ => 1
  let edigits := skip_sign expPart
  let intPart := mant.takeWhile (fun c => !(c == 46))
  let fracPart := (mant.dropWhile (fun c => !(c == 46))).drop 1
  sign * (digits_val (intPart ++ fracPart) : ℚ) *
    (10 : ℚ) ^ (esign * (digits_val edigits : Int) - (fracPart.length : Int))

/-- `parse_number`: consume a `<number>` token and evaluate it. -/
def parse_number (input : List Nat) : Option (List Nat × ℚ) :=
  match consume_number input with
  | some rest => some (rest, eval_number_token (input.take (input.length - rest.length)))
  | none => none

/-- `parse_percentage`: `<number>` immediately followed by `%`, divided
by 100. -/
def parse_percentage (input : List Nat) : Option (List Nat × ℚ) := do
  let (input, value) ← parse_number input
  let input ← consume_byte input 37
  some (input, value / 100)

/-- `parse_number_percentage`: `<number>` optionally followed by `%`; the
source divides by 100 in both branches. -/
def parse_number_percentage (input : List Nat) : Option (List Nat × ℚ) := do
  let (input, value) ← parse_number input
  match consume_byte input 37 with
  | some input => some (input, value / 100)
  | none => some (input, value / 100)

/-- `enum NumberOrPercentage`. -/
inductive NumberOrPercentage where
  | Number (value : ℚ)
  | Percentage (value : ℚ)
deriving DecidableEq, Repr

/-- `parse_number_or_percentage`. -/
def parse_number_or_percentage (input : List Nat) :
    Option (List Nat × NumberOrPercentage) := do
  let (input, value) ← parse_number input
  match consume_byte input 37 with
  | some input => some (input, NumberOrPercentage.Percentage (value / 100))
  | none => some (input, NumberOrPercentage.Number value)

/-- `clamp_unit_f32` on rational values: `value.clamp(0., 1.)`, written as the
Rust source of `f32::clamp` writes it (two comparisons). -/
def clamp_unit_f32 (value : ℚ) : ℚ :=
  if value < 0 then 0 else if 1 < value then 1 else value

/-- `parse_alpha_value`: `<number-or-percentage>` unwrapped and clamped. -/
def parse_alpha_value (input : List Nat) : Option (List Nat × ℚ) := do
  let (input, alpha) ← parse_number_or_percentage input
  let alpha :=
    match alpha with
    | NumberOrPercentage.Number value => value
    | NumberOrPercentage.Percentage value => value
  some (input, clamp_unit_f32 alpha)

/-- `is_ident_start` on the remaining input. -/
def is_ident_start (input : List Nat) : Bool :=
  match input[0]? with
  | some 45 =>
    (match input[1]? with
     | some 45 => true
     | some c => is_name_start c
     | none => false)
  | some c => is_name_start c
  | none => false

/-- The f32 value of `2. * f32::consts::PI` used by `parse_hue`:
`f32::consts::PI` is 13176795 / 2^22 and doubling it is exact in binary32. -/
def F32_TWO_PI : ℚ := 13176795 / 2097152

/-- `parse_hue`: `<number>` with an optional case-insensitive angle unit. -/
def parse_hue (input : List Nat) : Option (List Nat × ℚ) := do
  let (input, value) ← parse_number input
  if is_ident_start input = false then
    some (input, value / 360)
  else
    match consume_name input [100, 101, 103] with
    | some input => some (input, value / 360)
    | none =>
      match consume_name input [103, 114, 97, 100] with
      | some input => some (input, value / 400)
      | none =>
        match consume_name input [114, 97, 100] with
        | some input => some (input, value / F32_TWO_PI)
        | none =>
          match consume_name input [116, 117, 114, 110] with
          | some input => some (input, value)
          | none => none

/-- `normalize_hue`: `value - value.floor()`. -/
def normalize_hue (value : ℚ) : ℚ := value - ⌊value⌋

/-- `parse_hex`: the bytes after `#`; the `match input.len()` of the source
becomes a match on the list shape. -/
def parse_hex (input : List Nat) : Option Srgb :=
  match input with
  | [r1, r2, g1, g2, b1, b2, a1, a2] => do
    let r1 ← hex_digit r1
    let r2 ← hex_digit r2
    let g1 ← hex_digit g1
    let g2 ← hex_digit g2
    let b1 ← hex_digit b1
    let b2 ← hex_digit b2
    let a1 ← hex_digit a1
    let a2 ← hex_digit a2
    some (Srgb.from_rgba8 (r1 * 16 + r2) (g1 * 16 + g2) (b1 * 16 + b2) (a1 * 16 + a2))
  | [r1, r2, g1, g2, b1, b2] => do
    let r1 ← hex_digit r1
    let r2 ← hex_digit r2
    let g1 ← hex_digit g1
    let g2 ← hex_digit g2
    let b1 ← hex_digit b1
    let b2 ← hex_digit b2
    some (Srgb.from_rgb8 (r1 * 16 + r2) (g1 * 16 + g2) (b1 * 16 + b2))
  | [r, g, b, a] => do
    let r ← hex_digit r
    let g ← hex_digit g
    let b ← hex_digit b
    let a ← hex_digit a
    some (Srgb.from_rgba8 (r * 17) (g * 17) (b * 17) (a * 17))
  | [r, g, b] => do
    let r ← hex_digit r
    let g ← hex_digit g
    let b ← hex_digit b
    some (Srgb.from_rgb8 (r * 17) (g * 17) (b * 17))
  | _ => none

/-- `struct Hsla`. -/
structure Hsla where
  hue : ℚ
  saturation : ℚ
  lightness : ℚ
  alpha : ℚ

/-- The `hue_to_rgb` closure of `impl From<Hsla> for Srgb`, with the captured
`t1`, `t2` as parameters. -/
def hsl_hue_to_rgb (t1 t2 h6 : ℚ) : ℚ :=
  if h6 < 1 then (t2 - t1) * h6 + t1
  else if h6 < 3 then t2
  else if h6 < 4 then (t2 - t1) * (4 - h6) + t1
  else t1

/-- `impl From<Hsla> for Srgb`. -/
def srgb_of_hsla (hsla : Hsla) : Srgb :=
  let t2 :=
    if hsla.lightness ≤ 1/2 then hsla.lightness * (hsla.saturation + 1)
    else hsla.lightness + hsla.saturation - hsla.lightness * hsla.saturation
  let t1 := hsla.lightness * 2 - t2
  let h6 := hsla.hue * 6
  let h6_red := if h6 + 2 < 6 then h6 + 2 else h6 - 4
  let h6_blue := if h6 - 2 ≥ 0 then h6 - 2 else h6 + 4
  ⟨hsl_hue_to_rgb t1 t2 h6_red, hsl_hue_to_rgb t1 t2 h6,
   hsl_hue_to_rgb t1 t2 h6_blue, hsla.alpha⟩

/-- `struct Hwba`. -/
structure Hwba where
  hue : ℚ
  whiteness : ℚ
  blackness : ℚ
  alpha : ℚ

/-- The `hue_to_rgb` helper of `impl From<Hwba> for Srgb`. -/
def hwb_hue_to_rgb (h6 : ℚ) : ℚ :=
  if h6 < 1 then h6
  else if h6 < 3 then 1
  else if h6 < 4 then 4 - h6
  else 0

/-- `impl From<Hwba> for Srgb`. -/
def srgb_of_hwba (hwba : Hwba) : Srgb :=
  if hwba.whiteness + hwba.blackness ≥ 1 then
    let gray := hwba.whiteness / (hwba.whiteness + hwba.blackness)
    ⟨gray, gray, gray, hwba.alpha⟩
  else
    let h6 := hwba.hue * 6
    let h6_red := if h6 + 2 < 6 then h6 + 2 else h6 - 4
    let h6_blue := if h6 - 2 ≥ 0 then h6 - 2 else h6 + 4
    let x := 1 - hwba.whiteness - hwba.blackness
    ⟨hwb_hue_to_rgb h6_red * x + hwba.whiteness,
     hwb_hue_to_rgb h6 * x + hwba.whiteness,
     hwb_hue_to_rgb h6_blue * x + hwba.whiteness, hwba.alpha⟩

/-- The body shared by the two separator arms of the alpha section of
`parse_rgb`/`parse_hsl`/`parse_hwb`: skip the separator, then `<alpha-value>`,
or (modern syntax only) `none`. -/
def parse_alpha_sep (input : List Nat) (legacy : Bool) :
    Option (List Nat × ℚ) :=
  let input := skip_ws (input.drop 1)
  match parse_alpha_value input with
  | some (input, alpha) => some (skip_ws input, alpha)
  | none =>
    if legacy then none
    else
      match consume_none input with
      | some input => some (skip_ws input, NONE)
      | none => none

/-- The alpha section: `match (input.get(0), legacy)`, defaulting to
alpha 1 when no separator is present.  For `parse_hwb` it is used with
`legacy = false`, where it coincides with the hwb source's
`match input.get(0)` on `/`. -/
def parse_alpha_tail (input : List Nat) (legacy : Bool) :
    Option (List Nat × ℚ) :=
  match input[0]?, legacy with
  | some 47, false => parse_alpha_sep input false
  | some 44, true => parse_alpha_sep input true
  | _, _ => some (input, (1 : ℚ))

/-- The `[<percentage> | <number> | none]` component block used by the modern
saturation/lightness arms of `parse_hsl` and the whiteness/blackness arms of
`parse_hwb`, with trailing whitespace skipped. -/
def number_percentage_none (input : List Nat) : Option (List Nat × ℚ) :=
  match parse_number_percentage input with
  | some (input, value) => some (skip_ws input, value)
  | none =>
    match consume_none input with
    | some input => some (skip_ws input, NONE)
    | none => none

/-- The legacy saturation/lightness section of `parse_hsl`. -/
def hsl_sl_legacy (input : List Nat) : Option (List Nat × ℚ × ℚ) := do
  let (input, saturation) ← parse_percentage input
  let input := skip_ws input
  let input ← consume_byte input 44
  let input := skip_ws input
  let (input, lightness) ← parse_percentage input
  some (skip_ws input, saturation, lightness)

/-- The modern saturation/lightness section of `parse_hsl`. -/
def hsl_sl_modern (input : List Nat) : Option (List Nat × ℚ × ℚ) := do
  let (input, saturation) ← number_percentage_none input
  let (input, lightness) ← number_percentage_none input
  some (input, saturation, lightness)

/-- The leading `[<hue> | none]` section of `parse_hsl`, also detecting the
legacy comma. -/
def parse_hsl_hue (input : List Nat) : Option (List Nat × ℚ × Bool) :=
  match parse_hue input with
  | some (rest, hue) =>
    let rest := skip_ws rest
    (match rest[0]? with
     | some 44 => some (skip_ws (rest.drop 1), hue, true)
     | _ => some (rest, hue, false))
  | none =>
    (match consume_none input with
     | some rest => some (skip_ws rest, NONE, false)
     | none => none)

/-- The saturation/lightness section of `parse_hsl`: the legacy or the modern
block according to the selected syntax. -/
def hsl_sl (input : List Nat) (legacy : Bool) : Option (List Nat × ℚ × ℚ) :=
  if legacy then hsl_sl_legacy input else hsl_sl_modern input

/-- `parse_hsl`. -/
def parse_hsl (input : List Nat) : Option Srgb := do
  let (input, hue, legacy) ← parse_hsl_hue input
  let (input, saturation, lightness) ← hsl_sl input legacy
  let (input, alpha) ← parse_alpha_tail input legacy
  if input = [41] then
    some (srgb_of_hsla
      ⟨normalize_hue hue, clamp_unit_f32 saturation, clamp_unit_f32 lightness, alpha⟩)
  else
    none

/-- The leading `[<hue> | none]` section of `parse_hwb`. -/
def parse_hwb_hue (input : List Nat) : Option (List Nat × ℚ) :=
  match parse_hue input with
  | some (rest, hue) => some (skip_ws rest, hue)
  | none =>
    (match consume_none input with
     | some rest => some (skip_ws rest, NONE)
     | none => none)

/-- `parse_hwb`. -/
def parse_hwb (input : List Nat) : Option Srgb := do
  let (input, hue) ← parse_hwb_hue input
  let (input, whiteness) ← number_percentage_none input
  let (input, blackness) ← number_percentage_none input
  let (input, alpha) ← parse_alpha_tail input false
  if input = [41] then
    some (srgb_of_hwba
      ⟨normalize_hue hue, clamp_unit_f32 whiteness, clamp_unit_f32 blackness, alpha⟩)
  else
    none

/-- The final alpha section and `)` check of `parse_rgb`, building the clamped
color. -/
def rgb_finish (input : List Nat) (legacy : Bool) (red green blue : ℚ) :
    Option Srgb := do
  let (input, alpha) ← parse_alpha_tail input legacy
  if input = [41] then
    some ⟨clamp_unit_f32 red, clamp_unit_f32 green, clamp_unit_f32 blue, alpha⟩
  else
    none

/-- The `Number` arm of the legacy section of `parse_rgb`: the remaining two
channels are bare numbers, divided by 255. -/
def rgb_legacy_number (input : List Nat) (red : ℚ) : Option Srgb := do
  let (input, green) ← parse_number input
  let input := skip_ws input
  let input ← consume_byte input 44
  let input := skip_ws input
  let (input, blue) ← parse_number input
  let input := skip_ws input
  rgb_finish input true red (green / 255) (blue / 255)

/-- The `Percentage` arm of the legacy section of `parse_rgb`. -/
def rgb_legacy_percentage (input : List Nat) (red : ℚ) : Option Srgb := do
  let (input, green) ← parse_percentage input
  let input := skip_ws input
  let input ← consume_byte input 44
  let input := skip_ws input
  let (input, blue) ← parse_percentage input
  let input := skip_ws input
  rgb_finish input true red green blue

/-- One modern `rgb()` channel: `<number-or-percentage>` (numbers divided by
255) or `none`, with trailing whitespace skipped. -/
def rgb_modern_channel (input : List Nat) : Option (List Nat × ℚ) :=
  match parse_number_or_percentage input with
  | some (input, NumberOrPercentage.Number value) => some (skip_ws input, value / 255)
  | some (input, NumberOrPercentage.Percentage value) => some (skip_ws input, value)
  | none =>
    match consume_none input with
    | some input => some (skip_ws input, NONE)
    | none => none

/-- The modern green/blue section of `parse_rgb`. -/
def rgb_modern (input : List Nat) (red : ℚ) : Option Srgb := do
  let (input, green) ← rgb_modern_channel input
  let (input, blue) ← rgb_modern_channel input
  rgb_finish input false red green blue

/-- `parse_rgb`. -/
def parse_rgb (input : List Nat) : Option Srgb :=
  match parse_number_or_percentage input with
  | some (rest, red) =>
    let rest := skip_ws rest
    (match rest[0]? with
     | some 44 =>
       (match red with
        | NumberOrPercentage.Number value =>
          rgb_legacy_number (skip_ws (rest.drop 1)) (value / 255)
        | NumberOrPercentage.Percentage value =>
          rgb_legacy_percentage (skip_ws (rest.drop 1)) value)
     | _ =>
       rgb_modern rest
         (match red with
          | NumberOrPercentage.Number value => value / 255
          | NumberOrPercentage.Percentage value => value))
  | none =>
    match consume_none input with
    | some rest => rgb_modern (skip_ws rest) NONE
    | none => none

/-- The named-color table of `parse_named`, keyed by lowercase byte strings. -/
def named_colors : List (List Nat × Srgb) := [
  ([97, 108, 105, 99, 101, 98, 108, 117, 101], Srgb.from_rgb8 240 248 255),
  ([97, 110, 116, 105, 113, 117, 101, 119, 104, 105, 116, 101], Srgb.from_rgb8 250 235 215),
  ([97, 113, 117, 97], Srgb.from_rgb8 0 255 255),
  ([97, 113, 117, 97, 109, 97, 114, 105, 110, 101], Srgb.from_rgb8 127 255 212),
  ([97, 122, 117, 114, 101], Srgb.from_rgb8 240 255 255),
  ([98, 101, 105, 103, 101], Srgb.from_rgb8 245 245 220),
  ([98, 105, 115, 113, 117, 101], Srgb.from_rgb8 255 228 196),
  ([98, 108, 97, 99, 107], Srgb.from_rgb8 0 0 0),
  ([98, 108, 97, 110, 99, 104, 101, 100, 97, 108, 109, 111, 110, 100], Srgb.from_rgb8 255 235 205),
  ([98, 108, 117, 101], Srgb.from_rgb8 0 0 255),
  ([98, 108, 117, 101, 118, 105, 111, 108, 101, 116], Srgb.from_rgb8 138 43 226),
  ([98, 114, 111, 119, 110], Srgb.from_rgb8 165 42 42),
  ([98, 117, 114, 108, 121, 119, 111, 111, 100], Srgb.from_rgb8 222 184 135),
  ([99, 97, 100, 101, 116, 98, 108, 117, 101], Srgb.from_rgb8 95 158 160),
  ([99, 104, 97, 114, 116, 114, 101, 117, 115, 101], Srgb.from_rgb8 127 255 0),
  ([99, 104, 111, 99, 111, 108, 97, 116, 101], Srgb.from_rgb8 210 105 30),
  ([99, 111, 114, 97, 108], Srgb.from_rgb8 255 127 80),
  ([99, 111, 114, 110, 102, 108, 111, 119, 101, 114, 98, 108, 117, 101], Srgb.from_rgb8 100 149 237),
  ([99, 111, 114, 110, 115, 105, 108, 107], Srgb.from_rgb8 255 248 220),
  ([99, 114, 105, 109, 115, 111, 110], Srgb.from_rgb8 220 20 60),
  ([99, 121, 97, 110], Srgb.from_rgb8 0 255 255),
  ([100, 97, 114, 107, 98, 108, 117, 101], Srgb.from_rgb8 0 0 139),
  ([100, 97, 114, 107, 99, 121, 97, 110], Srgb.from_rgb8 0 139 139),
  ([100, 97, 114, 107, 103, 111, 108, 100, 101, 110, 114, 111, 100], Srgb.from_rgb8 184 134 11),
  ([100, 97, 114, 107, 103, 114, 97, 121], Srgb.from_rgb8 169 169 169),
  ([100, 97, 114, 107, 103, 114, 101, 101, 110], Srgb.from_rgb8 0 100 0),
  ([100, 97, 114, 107, 103, 114, 101, 121], Srgb.from_rgb8 169 169 169),
  ([100, 97, 114, 107, 107, 104, 97, 107, 105], Srgb.from_rgb8 189 183 107),
  ([100, 97, 114, 107, 109, 97, 103, 101, 110, 116, 97], Srgb.from_rgb8 139 0 139),
  ([100, 97, 114, 107, 111, 108, 105, 118, 101, 103, 114, 101, 101, 110], Srgb.from_rgb8 85 107 47),
  ([100, 97, 114, 107, 111, 114, 97, 110, 103, 101], Srgb.from_rgb8 255 140 0),
  ([100, 97, 114, 107, 111, 114, 99, 104, 105, 100], Srgb.from_rgb8 153 50 204),
  ([100, 97, 114, 107, 114, 101, 100], Srgb.from_rgb8 139 0 0),
  ([100, 97, 114, 107, 115, 97, 108, 109, 111, 110], Srgb.from_rgb8 233 150 122),
  ([100, 97, 114, 107, 115, 101, 97, 103, 114, 101, 101, 110], Srgb.from_rgb8 143 188 143),
  ([100, 97, 114, 107, 115, 108, 97, 116, 101, 98, 108, 117, 101], Srgb.from_rgb8 72 61 139),
  ([100, 97, 114, 107, 115, 108, 97, 116, 101, 103, 114, 97, 121], Srgb.from_rgb8 47 79 79),
  ([100, 97, 114, 107, 115, 108, 97, 116, 101, 103, 114, 101, 121], Srgb.from_rgb8 47 79 79),
  ([100, 97, 114, 107, 116, 117, 114, 113, 117, 111, 105, 115, 101], Srgb.from_rgb8 0 206 209),
  ([100, 97, 114, 107, 118, 105, 111, 108, 101, 116], Srgb.from_rgb8 148 0 211),
  ([100, 101, 101, 112, 112, 105, 110, 107], Srgb.from_rgb8 255 20 147),
  ([100, 101, 101, 112, 115, 107, 121, 98, 108, 117, 101], Srgb.from_rgb8 0 191 255),
  ([100, 105, 109, 103, 114, 97, 121], Srgb.from_rgb8 105 105 105),
  ([100, 105, 109, 103, 114, 101, 121], Srgb.from_rgb8 105 105 105),
  ([100, 111, 100, 103, 101, 114, 98, 108, 117, 101], Srgb.from_rgb8 30 144 255),
  ([102, 105, 114, 101, 98, 114, 105, 99, 107], Srgb.from_rgb8 178 34 34),
  ([102, 108, 111, 114, 97, 108, 119, 104, 105, 116, 101], Srgb.from_rgb8 255 250 240),
  ([102, 111, 114, 101, 115, 116, 103, 114, 101, 101, 110], Srgb.from_rgb8 34 139 34),
  ([102, 117, 99, 104, 115, 105, 97], Srgb.from_rgb8 255 0 255),
  ([103, 97, 105, 110, 115, 98, 111, 114, 111], Srgb.from_rgb8 220 220 220),
  ([103, 104, 111, 115, 116, 119, 104, 105, 116, 101], Srgb.from_rgb8 248 248 255),
  ([103, 111, 108, 100], Srgb.from_rgb8 255 215 0),
  ([103, 111, 108, 100, 101, 110, 114, 111, 100], Srgb.from_rgb8 218 165 32),
  ([103, 114, 97, 121], Srgb.from_rgb8 128 128 128),
  ([103, 114, 101, 101, 110], Srgb.from_rgb8 0 128 0),
  ([103, 114, 101, 101, 110, 121, 101, 108, 108, 111, 119], Srgb.from_rgb8 173 255 47),
  ([103, 114, 101, 121], Srgb.from_rgb8 128 128 128),
  ([104, 111, 110, 101, 121, 100, 101, 119], Srgb.from_rgb8 240 255 240),
  ([104, 111, 116, 112, 105, 110, 107], Srgb.from_rgb8 255 105 180),
  ([105, 110, 100, 105, 97, 110, 114, 101, 100], Srgb.from_rgb8 205 92 92),
  ([105, 110, 100, 105, 103, 111], Srgb.from_rgb8 75 0 130),
  ([105, 118, 111, 114, 121], Srgb.from_rgb8 255 255 240),
  ([107, 104, 97, 107, 105], Srgb.from_rgb8 240 230 140),
  ([108, 97, 118, 101, 110, 100, 101, 114], Srgb.from_rgb8 230 230 250),
  ([108, 97, 118, 101, 110, 100, 101, 114, 98, 108, 117, 115, 104], Srgb.from_rgb8 255 240 245),
  ([108, 97, 119, 110, 103, 114, 101, 101, 110], Srgb.from_rgb8 124 252 0),
  ([108, 101, 109, 111, 110, 99, 104, 105, 102, 102, 111, 110], Srgb.from_rgb8 255 250 205),
  ([108, 105, 103, 104, 116, 98, 108, 117, 101], Srgb.from_rgb8 173 216 230),
  ([108, 105, 103, 104, 116, 99, 111, 114, 97, 108], Srgb.from_rgb8 240 128 128),
  ([108, 105, 103, 104, 116, 99, 121, 97, 110], Srgb.from_rgb8 224 255 255),
  ([108, 105, 103, 104, 116, 103, 111, 108, 100, 101, 110, 114, 111, 100, 121, 101, 108, 108, 111, 119], Srgb.from_rgb8 250 250 210),
  ([108, 105, 103, 104, 116, 103, 114, 97, 121], Srgb.from_rgb8 211 211 211),
  ([108, 105, 103, 104, 116, 103, 114, 101, 101, 110], Srgb.from_rgb8 144 238 144),
  ([108, 105, 103, 104, 116, 103, 114, 101, 121], Srgb.from_rgb8 211 211 211),
  ([108, 105, 103, 104, 116, 112, 105, 110, 107], Srgb.from_rgb8 255 182 193),
  ([108, 105, 103, 104, 116, 115, 97, 108, 109, 111, 110], Srgb.from_rgb8 255 160 122),
  ([108, 105, 103, 104, 116, 115, 101, 97, 103, 114, 101, 101, 110], Srgb.from_rgb8 32 178 170),
  ([108, 105, 103, 104, 116, 115, 107, 121, 98, 108, 117, 101], Srgb.from_rgb8 135 206 250),
  ([108, 105, 103, 104, 116, 115, 108, 97, 116, 101, 103, 114, 97, 121], Srgb.from_rgb8 119 136 153),
  ([108, 105, 103, 104, 116, 115, 108, 97, 116, 101, 103, 114, 101, 121], Srgb.from_rgb8 119 136 153),
  ([108, 105, 103, 104, 116, 115, 116, 101, 101, 108, 98, 108, 117, 101], Srgb.from_rgb8 176 196 222),
  ([108, 105, 103, 104, 116, 121, 101, 108, 108, 111, 119], Srgb.from_rgb8 255 255 224),
  ([108, 105, 109, 101], Srgb.from_rgb8 0 255 0),
  ([108, 105, 109, 101, 103, 114, 101, 101, 110], Srgb.from_rgb8 50 205 50),
  ([108, 105, 110, 101, 110], Srgb.from_rgb8 250 240 230),
  ([109, 97, 103, 101, 110, 116, 97], Srgb.from_rgb8 255 0 255),
  ([109, 97, 114, 111, 111, 110], Srgb.from_rgb8 128 0 0),
  ([109, 101, 100, 105, 117, 109, 97, 113, 117, 97, 109, 97, 114, 105, 110, 101], Srgb.from_rgb8 102 205 170),
  ([109, 101, 100, 105, 117, 109, 98, 108, 117, 101], Srgb.from_rgb8 0 0 205),
  ([109, 101, 100, 105, 117, 109, 111, 114, 99, 104, 105, 100], Srgb.from_rgb8 186 85 211),
  ([109, 101, 100, 105, 117, 109, 112, 117, 114, 112, 108, 101], Srgb.from_rgb8 147 112 219),
  ([109, 101, 100, 105, 117, 109, 115, 101, 97, 103, 114, 101, 101, 110], Srgb.from_rgb8 60 179 113),
  ([109, 101, 100, 105, 117, 109, 115, 108, 97, 116, 101, 98, 108, 117, 101], Srgb.from_rgb8 123 104 238),
  ([109, 101, 100, 105, 117, 109, 115, 112, 114, 105, 110, 103, 103, 114, 101, 101, 110], Srgb.from_rgb8 0 250 154),
  ([109, 101, 100, 105, 117, 109, 116, 117, 114, 113, 117, 111, 105, 115, 101], Srgb.from_rgb8 72 209 204),
  ([109, 101, 100, 105, 117, 109, 118, 105, 111, 108, 101, 116, 114, 101, 100], Srgb.from_rgb8 199 21 133),
  ([109, 105, 100, 110, 105, 103, 104, 116, 98, 108, 117, 101], Srgb.from_rgb8 25 25 112),
  ([109, 105, 110, 116, 99, 114, 101, 97, 109], Srgb.from_rgb8 245 255 250),
  ([109, 105, 115, 116, 121, 114, 111, 115, 101], Srgb.from_rgb8 255 228 225),
  ([109, 111, 99, 99, 97, 115, 105, 110], Srgb.from_rgb8 255 228 181),
  ([110, 97, 118, 97, 106, 111, 119, 104, 105, 116, 101], Srgb.from_rgb8 255 222 173),
  ([110, 97, 118, 121], Srgb.from_rgb8 0 0 128),
  ([111, 108, 100, 108, 97, 99, 101], Srgb.from_rgb8 253 245 230),
  ([111, 108, 105, 118, 101], Srgb.from_rgb8 128 128 0),
  ([111, 108, 105, 118, 101, 100, 114, 97, 98], Srgb.from_rgb8 107 142 35),
  ([111, 114, 97, 110, 103, 101], Srgb.from_rgb8 255 165 0),
  ([111, 114, 97, 110, 103, 101, 114, 101, 100], Srgb.from_rgb8 255 69 0),
  ([111, 114, 99, 104, 105, 100], Srgb.from_rgb8 218 112 214),
  ([112, 97, 108, 101, 103, 111, 108, 100, 101, 110, 114, 111, 100], Srgb.from_rgb8 238 232 170),
  ([112, 97, 108, 101, 103, 114, 101, 101, 110], Srgb.from_rgb8 152 251 152),
  ([112, 97, 108, 101, 116, 117, 114, 113, 117, 111, 105, 115, 101], Srgb.from_rgb8 175 238 238),
  ([112, 97, 108, 101, 118, 105, 111, 108, 101, 116, 114, 101, 100], Srgb.from_rgb8 219 112 147),
  ([112, 97, 112, 97, 121, 97, 119, 104, 105, 112], Srgb.from_rgb8 255 239 213),
  ([112, 101, 97, 99, 104, 112, 117, 102, 102], Srgb.from_rgb8 255 218 185),
  ([112, 101, 114, 117], Srgb.from_rgb8 205 133 63),
  ([112, 105, 110, 107], Srgb.from_rgb8 255 192 203),
  ([112, 108, 117, 109], Srgb.from_rgb8 221 160 221),
  ([112, 111, 119, 100, 101, 114, 98, 108, 117, 101], Srgb.from_rgb8 176 224 230),
  ([112, 117, 114, 112, 108, 101], Srgb.from_rgb8 128 0 128),
  ([114, 101, 98, 101, 99, 99, 97, 112, 117, 114, 112, 108, 101], Srgb.from_rgb8 102 51 153),
  ([114, 101, 100], Srgb.from_rgb8 255 0 0),
  ([114, 111, 115, 121, 98, 114, 111, 119, 110], Srgb.from_rgb8 188 143 143),
  ([114, 111, 121, 97, 108, 98, 108, 117, 101], Srgb.from_rgb8 65 105 225),
  ([115, 97, 100, 100, 108, 101, 98, 114, 111, 119, 110], Srgb.from_rgb8 139 69 19),
  ([115, 97, 108, 109, 111, 110], Srgb.from_rgb8 250 128 114),
  ([115, 97, 110, 100, 121, 98, 114, 111, 119, 110], Srgb.from_rgb8 244 164 96),
  ([115, 101, 97, 103, 114, 101, 101, 110], Srgb.from_rgb8 46 139 87),
  ([115, 101, 97, 115, 104, 101, 108, 108], Srgb.from_rgb8 255 245 238),
  ([115, 105, 101, 110, 110, 97], Srgb.from_rgb8 160 82 45),
  ([115, 105, 108, 118, 101, 114], Srgb.from_rgb8 192 192 192),
  ([115, 107, 121, 98, 108, 117, 101], Srgb.from_rgb8 135 206 235),
  ([115, 108, 97, 116, 101, 98, 108, 117, 101], Srgb.from_rgb8 106 90 205),
  ([115, 108, 97, 116, 101, 103, 114, 97, 121], Srgb.from_rgb8 112 128 144),
  ([115, 108, 97, 116, 101, 103, 114, 101, 121], Srgb.from_rgb8 112 128 144),
  ([115, 110, 111, 119], Srgb.from_rgb8 255 250 250),
  ([115, 112, 114, 105, 110, 103, 103, 114, 101, 101, 110], Srgb.from_rgb8 0 255 127),
  ([115, 116, 101, 101, 108, 98, 108, 117, 101], Srgb.from_rgb8 70 130 180),
  ([116, 97, 110], Srgb.from_rgb8 210 180 140),
  ([116, 101, 97, 108], Srgb.from_rgb8 0 128 128),
  ([116, 104, 105, 115, 116, 108, 101], Srgb.from_rgb8 216 191 216),
  ([116, 111, 109, 97, 116, 111], Srgb.from_rgb8 255 99 71),
  ([116, 117, 114, 113, 117, 111, 105, 115, 101], Srgb.from_rgb8 64 224 208),
  ([118, 105, 111, 108, 101, 116], Srgb.from_rgb8 238 130 238),
  ([119, 104, 101, 97, 116], Srgb.from_rgb8 245 222 179),
  ([119, 104, 105, 116, 101], Srgb.from_rgb8 255 255 255),
  ([119, 104, 105, 116, 101, 115, 109, 111, 107, 101], Srgb.from_rgb8 245 245 245),
  ([121, 101, 108, 108, 111, 119], Srgb.from_rgb8 255 255 0),
  ([121, 101, 108, 108, 111, 119, 103, 114, 101, 101, 110], Srgb.from_rgb8 154 205 50),
  ([116, 114, 97, 110, 115, 112, 97, 114, 101, 110, 116], Srgb.mk 0 0 0 0)]

/-- The `match &*name` lookup of `parse_named`. -/
def lookup_color (name : List Nat) : List (List Nat × Srgb) → Option Srgb
  | [] => none
  | (key, color) :: rest => if name = key then some color else lookup_color name rest

/-- `NAMED_MAX_LEN`. -/
def NAMED_MAX_LEN : Nat := 20

/-- `parse_named`: fail fast on over-long input, then look the lowercased
input up in the table. -/
def parse_named (input : List Nat) : Option Srgb :=
  if NAMED_MAX_LEN < input.length then none
  else lookup_color (input.map to_ascii_lowercase) named_colors

/-- `parse_css_color`: the grammar dispatcher. -/
def parse_css_color (input : List Nat) : Option Srgb :=
  match consume_byte input 35 with
  | some rest => parse_hex rest
  | none =>
    match consume_function input [114, 103, 98] with
    | some rest => parse_rgb rest
    | none =>
      match consume_function input [114, 103, 98, 97] with
      | some rest => parse_rgb rest
      | none =>
        match consume_function input [104, 115, 108] with
        | some rest => parse_hsl rest
        | none =>
          match consume_function input [104, 115, 108, 97] with
          | some rest => parse_hsl rest
          | none =>
            match consume_function input [104, 119, 98] with
            | some rest => parse_hwb rest
            | none => parse_named input

/-- Rust `f32` values including the IEEE-754 special values, used to state
the claims about the NaN behaviour of the clamp.  Finite values are exact
rationals. -/
inductive F32 where
  | nan : F32
  | negInf : F32
  | posInf : F32
  | finite (value : ℚ) : F32
deriving DecidableEq, Repr

/-- IEEE-754 `<` on `F32`: every comparison involving NaN is false. -/
def F32.lt : F32 → F32 → Bool
  | F32.nan, _ => false
  | _, F32.nan => false
  | F32.negInf, F32.negInf => false
  | F32.negInf, _ => true
  | _, F32.negInf => false
  | F32.posInf, _ => false
  | _, F32.posInf => true
  | F32.finite a, F32.finite b => decide (a < b)

/-- `clamp_unit_f32` on the full `f32` domain, following the Rust
implementation of `f32::clamp`:
`if self < min { self = min } if self > max { self = max } self`. -/
def clamp_unit_F32 (value : F32) : F32 :=
  let value := if F32.lt value (F32.finite 0) then F32.finite 0 else value
  if F32.lt (F32.finite 1) value then F32.finite 1 else value

/-- The value is a genuine number lying in the unit interval. -/
def F32.mem_unit : F32 → Prop
  | F32.finite value => 0 ≤ value ∧ value ≤ 1
  | _ => False


/-! ## General helper lemmas about the scanner primitives -/

/-- The conjunction `0 ≤ v ≤ 1` for all four components: the invariant of the
data model. -/
def srgb_in_unit (c : Srgb) : Prop :=
  0 ≤ c.red ∧ c.red ≤ 1 ∧ 0 ≤ c.green ∧ c.green ≤ 1 ∧
    0 ≤ c.blue ∧ c.blue ≤ 1 ∧ 0 ≤ c.alpha ∧ c.alpha ≤ 1

theorem skip_ws_cons_of_not_ws {c : Nat} (rest : List Nat)
    (h : is_whitespace c = false) : skip_ws (c :: rest) = c :: rest := by
  simp [skip_ws, h]

theorem consume_byte_some {input rest : List Nat} {b : Nat} :
    consume_byte input b = some rest ↔ input = b :: rest := by
  cases input with
  | nil => simp [consume_byte]
  | cons c t =>
    by_cases hc : c = b
    · subst hc; simp [consume_byte]
    · simp [consume_byte, hc]

theorem consume_byte_none {input : List Nat} {b : Nat} :
    consume_byte input b = none ↔ input[0]? ≠ some b := by
  cases input with
  | nil => simp [consume_byte]
  | cons c t =>
    by_cases hc : c = b
    · subst hc; simp [consume_byte]
    · simp [consume_byte, hc, Ne.symm hc]

theorem eq_ignore_ascii_case_idx {input name : List Nat} (i : Nat)
    (h : eq_ignore_ascii_case (input.take name.length) name = true)
    (hi : i < name.length) :
    Option.map to_ascii_lowercase input[i]? = Option.map to_ascii_lowercase name[i]? := by
  have hmap : (input.take name.length).map to_ascii_lowercase =
      name.map to_ascii_lowercase := by
    simpa [eq_ignore_ascii_case] using h
  have h2 := congrArg (fun l => l[i]?) hmap
  simp only [List.getElem?_map] at h2
  rwa [List.getElem?_take_of_lt hi] at h2

theorem consume_function_parts {input name rest : List Nat}
    (h : consume_function input name = some rest) :
    eq_ignore_ascii_case (input.take name.length) name = true ∧
      name.length + 1 ≤ input.length ∧ input[name.length]? = some 40 ∧
      rest = skip_ws (input.drop (name.length + 1)) := by
  simp only [consume_function] at h
  split at h
  · next hc =>
    simp only [Bool.and_eq_true, decide_eq_true_eq, beq_iff_eq] at hc
    exact ⟨hc.1.1, hc.1.2, hc.2, (Option.some_inj.mp h).symm⟩
  · exact absurd h (by simp)

theorem consume_function_idx {input name rest : List Nat} (i : Nat)
    (h : consume_function input name = some rest) (hi : i < name.length) :
    Option.map to_ascii_lowercase input[i]? = Option.map to_ascii_lowercase name[i]? :=
  eq_ignore_ascii_case_idx i (consume_function_parts h).1 hi

theorem consume_function_none_of_idx {input name : List Nat} (i : Nat)
    (hi : i < name.length)
    (hne : Option.map to_ascii_lowercase input[i]? ≠
      Option.map to_ascii_lowercase name[i]?) :
    consume_function input name = none := by
  simp only [consume_function]
  split
  · next hc =>
    simp only [Bool.and_eq_true, decide_eq_true_eq, beq_iff_eq] at hc
    exact absurd (eq_ignore_ascii_case_idx i hc.1.1 hi) hne
  · rfl

theorem consume_name_parts {input name rest : List Nat}
    (h : consume_name input name = some rest) :
    name.length ≤ input.length ∧
      eq_ignore_ascii_case (input.take name.length) name = true ∧
      no_name_at input name.length = true ∧ rest = input.drop name.length := by
  simp only [consume_name] at h
  split at h
  · next hc =>
    simp only [Bool.and_eq_true, decide_eq_true_eq] at hc
    exact ⟨hc.1.1, hc.1.2, hc.2, (Option.some_inj.mp h).symm⟩
  · exact absurd h (by simp)

theorem consume_name_idx {input name rest : List Nat} (i : Nat)
    (h : consume_name input name = some rest) (hi : i < name.length) :
    Option.map to_ascii_lowercase input[i]? = Option.map to_ascii_lowercase name[i]? :=
  eq_ignore_ascii_case_idx i (consume_name_parts h).2.1 hi

theorem consume_name_none_of_idx {input name : List Nat} (i : Nat)
    (hi : i < name.length)
    (hne : Option.map to_ascii_lowercase input[i]? ≠
      Option.map to_ascii_lowercase name[i]?) :
    consume_name input name = none := by
  simp only [consume_name]
  split
  · next hc =>
    simp only [Bool.and_eq_true, decide_eq_true_eq] at hc
    exact absurd (eq_ignore_ascii_case_idx i hc.1.2 hi) hne
  · rfl

theorem head_lower {input : List Nat} {k : Nat}
    (h : Option.map to_ascii_lowercase input[0]? = some k) :
    ∃ c t, input = c :: t ∧ to_ascii_lowercase c = k := by
  cases input with
  | nil => simp at h
  | cons c t => exact ⟨c, t, rfl, by simpa using h⟩

theorem to_ascii_lowercase_cases {c k : Nat} (h : to_ascii_lowercase c = k) :
    c = k ∨ (65 ≤ c ∧ c ≤ 90 ∧ c + 32 = k) := by
  unfold to_ascii_lowercase at h
  split at h <;> omega

/-! ## Number-token helper lemmas -/

theorem skip_sign_cons {c : Nat} (rest : List Nat) (h43 : c ≠ 43) (h45 : c ≠ 45) :
    skip_sign (c :: rest) = c :: rest := by
  unfold skip_sign
  split
  · next heq => exact absurd (by injection heq) h43
  · next heq => exact absurd (by injection heq) h45
  · rfl

theorem consume_number_none_head {c : Nat} (rest : List Nat)
    (h43 : c ≠ 43) (h45 : c ≠ 45) (h46 : c ≠ 46) (hd : digit c = none) :
    consume_number (c :: rest) = none := by
  unfold consume_number
  rw [skip_sign_cons rest h43 h45]
  simp only [List.getElem?_cons_zero]
  split
  · next heq => simp at heq; omega
  · simp [consume_digits, hd]

theorem parse_number_none_head {c : Nat} (rest : List Nat)
    (h43 : c ≠ 43) (h45 : c ≠ 45) (h46 : c ≠ 46) (hd : digit c = none) :
    parse_number (c :: rest) = none := by
  unfold parse_number
  rw [consume_number_none_head rest h43 h45 h46 hd]

/-! ## Hex parser lemmas -/

theorem isSome_bind_iff {α β : Type} (o : Option α) (f : α → Option β) :
    (o.bind f).isSome = true ↔ ∃ a, o = some a ∧ (f a).isSome = true := by
  cases o <;> simp

theorem parse_hex_long (a b c d e f g h i : Nat) (rest : List Nat) :
    parse_hex (a :: b :: c :: d :: e :: f :: g :: h :: i :: rest) = none := rfl

theorem hex3_eq {c0 c1 c2 d0 d1 d2 : Nat} (h0 : hex_digit c0 = some d0)
    (h1 : hex_digit c1 = some d1) (h2 : hex_digit c2 = some d2) :
    parse_hex [c0, c1, c2] =
      some ⟨(17 * d0 : ℚ) / 255, (17 * d1 : ℚ) / 255, (17 * d2 : ℚ) / 255, 1⟩ := by
  simp [parse_hex, h0, h1, h2, Srgb.from_rgb8, Srgb.from_rgba8, Srgb.mk.injEq]
  and_intros <;> ring

theorem hex4_eq {c0 c1 c2 c3 d0 d1 d2 d3 : Nat} (h0 : hex_digit c0 = some d0)
    (h1 : hex_digit c1 = some d1) (h2 : hex_digit c2 = some d2)
    (h3 : hex_digit c3 = some d3) :
    parse_hex [c0, c1, c2, c3] =
      some ⟨(17 * d0 : ℚ) / 255, (17 * d1 : ℚ) / 255, (17 * d2 : ℚ) / 255,
        (17 * d3 : ℚ) / 255⟩ := by
  simp [parse_hex, h0, h1, h2, h3, Srgb.from_rgba8, Srgb.mk.injEq]
  and_intros <;> ring

theorem hex6_eq {c0 c1 c2 c3 c4 c5 d0 d1 d2 d3 d4 d5 : Nat}
    (h0 : hex_digit c0 = some d0) (h1 : hex_digit c1 = some d1)
    (h2 : hex_digit c2 = some d2) (h3 : hex_digit c3 = some d3)
    (h4 : hex_digit c4 = some d4) (h5 : hex_digit c5 = some d5) :
    parse_hex [c0, c1, c2, c3, c4, c5] =
      some ⟨(16 * d0 + d1 : ℚ) / 255, (16 * d2 + d3 : ℚ) / 255,
        (16 * d4 + d5 : ℚ) / 255, 1⟩ := by
  simp [parse_hex, h0, h1, h2, h3, h4, h5, Srgb.from_rgb8, Srgb.from_rgba8, Srgb.mk.injEq]
  and_intros <;> ring

theorem hex8_eq {c0 c1 c2 c3 c4 c5 c6 c7 d0 d1 d2 d3 d4 d5 d6 d7 : Nat}
    (h0 : hex_digit c0 = some d0) (h1 : hex_digit c1 = some d1)
    (h2 : hex_digit c2 = some d2) (h3 : hex_digit c3 = some d3)
    (h4 : hex_digit c4 = some d4) (h5 : hex_digit c5 = some d5)
    (h6 : hex_digit c6 = some d6) (h7 : hex_digit c7 = some d7) :
    parse_hex [c0, c1, c2, c3, c4, c5, c6, c7] =
      some ⟨(16 * d0 + d1 : ℚ) / 255, (16 * d2 + d3 : ℚ) / 255,
        (16 * d4 + d5 : ℚ) / 255, (16 * d6 + d7 : ℚ) / 255⟩ := by
  simp [parse_hex, h0, h1, h2, h3, h4, h5, h6, h7, Srgb.from_rgba8, Srgb.mk.injEq]
  and_intros <;> ring

theorem hex_isSome_iff (input : List Nat) :
    (parse_hex input).isSome = true ↔
      ((input.length = 3 ∨ input.length = 4 ∨ input.length = 6 ∨ input.length = 8) ∧
        ∀ c ∈ input, (hex_digit c).isSome = true) := by
  rcases input with _ | ⟨a, _ | ⟨b, _ | ⟨c, _ | ⟨d, _ | ⟨e, _ | ⟨f, _ | ⟨g, _ | ⟨h, _ | ⟨i, rest⟩⟩⟩⟩⟩⟩⟩⟩⟩
  · simp [parse_hex]
  · have hz : parse_hex [a] = none := rfl
    simp [hz]
  · have hz : parse_hex [a, b] = none := rfl
    simp [hz]
  · cases h0 : hex_digit a <;> cases h1 : hex_digit b <;> cases h2 : hex_digit c <;>
      simp [parse_hex, h0, h1, h2]
  · cases h0 : hex_digit a <;> cases h1 : hex_digit b <;> cases h2 : hex_digit c <;>
      cases h3 : hex_digit d <;> simp [parse_hex, h0, h1, h2, h3]
  · have hz : parse_hex [a, b, c, d, e] = none := rfl
    simp [hz]
  · cases h0 : hex_digit a <;> cases h1 : hex_digit b <;> cases h2 : hex_digit c <;>
      cases h3 : hex_digit d <;> cases h4 : hex_digit e <;> cases h5 : hex_digit f <;>
      simp [parse_hex, h0, h1, h2, h3, h4, h5]
  · have hz : parse_hex [a, b, c, d, e, f, g] = none := rfl
    simp [hz]
  · cases h0 : hex_digit a <;> cases h1 : hex_digit b <;> cases h2 : hex_digit c <;>
      cases h3 : hex_digit d <;> cases h4 : hex_digit e <;> cases h5 : hex_digit f <;>
      cases h6 : hex_digit g <;> cases h7 : hex_digit h <;>
      simp [parse_hex, h0, h1, h2, h3, h4, h5, h6, h7]
  · simp [parse_hex_long]

theorem parse_css_color_hash (rest : List Nat) :
    parse_css_color (35 :: rest) = parse_hex rest := by
  simp [parse_css_color, consume_byte]

theorem hex_dup {c0 c1 c2 : Nat} (h0 : (hex_digit c0).isSome = true)
    (h1 : (hex_digit c1).isSome = true) (h2 : (hex_digit c2).isSome = true) :
    parse_css_color [35, c0, c1, c2] = parse_css_color [35, c0, c0, c1, c1, c2, c2] := by
  obtain ⟨d0, hd0⟩ := Option.isSome_iff_exists.mp h0
  obtain ⟨d1, hd1⟩ := Option.isSome_iff_exists.mp h1
  obtain ⟨d2, hd2⟩ := Option.isSome_iff_exists.mp h2
  rw [show ([35, c0, c1, c2] : List Nat) = 35 :: [c0, c1, c2] from rfl,
    show ([35, c0, c0, c1, c1, c2, c2] : List Nat) = 35 :: [c0, c0, c1, c1, c2, c2] from rfl,
    parse_css_color_hash, parse_css_color_hash, hex3_eq hd0 hd1 hd2,
    hex6_eq hd0 hd0 hd1 hd1 hd2 hd2]
  simp only [Option.some_inj, Srgb.mk.injEq]
  and_intros <;> ring

/-- **C3.** For every input beginning with `#`, parsing succeeds iff the bytes
after `#` are exactly 3, 4, 6, or 8 hex digits; 3/6-digit forms produce
alpha 1 while 4/8-digit forms parse an alpha channel; each short-form channel
is the hex digit times 17 and each long-form channel is high·16 + low; every
8-bit channel (alpha included) is divided by 255; and the 3-digit form equals
the 6-digit form with every digit duplicated. -/
theorem spec_C3 :
    (∀ rest, parse_css_color (35 :: rest) = parse_hex rest) ∧
    (∀ input, (parse_hex input).isSome = true ↔
      ((input.length = 3 ∨ input.length = 4 ∨ input.length = 6 ∨ input.length = 8) ∧
        ∀ c ∈ input, (hex_digit c).isSome = true)) ∧
    (∀ c0 c1 c2 d0 d1 d2 : Nat, hex_digit c0 = some d0 → hex_digit c1 = some d1 →
      hex_digit c2 = some d2 →
      parse_hex [c0, c1, c2] =
        some ⟨(17 * d0 : ℚ) / 255, (17 * d1 : ℚ) / 255, (17 * d2 : ℚ) / 255, 1⟩) ∧
    (∀ c0 c1 c2 c3 d0 d1 d2 d3 : Nat, hex_digit c0 = some d0 → hex_digit c1 = some d1 →
      hex_digit c2 = some d2 → hex_digit c3 = some d3 →
      parse_hex [c0, c1, c2, c3] =
        some ⟨(17 * d0 : ℚ) / 255, (17 * d1 : ℚ) / 255, (17 * d2 : ℚ) / 255,
          (17 * d3 : ℚ) / 255⟩) ∧
    (∀ c0 c1 c2 c3 c4 c5 d0 d1 d2 d3 d4 d5 : Nat, hex_digit c0 = some d0 →
      hex_digit c1 = some d1 → hex_digit c2 = some d2 → hex_digit c3 = some d3 →
      hex_digit c4 = some d4 → hex_digit c5 = some d5 →
      parse_hex [c0, c1, c2, c3, c4, c5] =
        some ⟨(16 * d0 + d1 : ℚ) / 255, (16 * d2 + d3 : ℚ) / 255,
          (16 * d4 + d5 : ℚ) / 255, 1⟩) ∧
    (∀ c0 c1 c2 c3 c4 c5 c6 c7 d0 d1 d2 d3 d4 d5 d6 d7 : Nat, hex_digit c0 = some d0 →
      hex_digit c1 = some d1 → hex_digit c2 = some d2 → hex_digit c3 = some d3 →
      hex_digit c4 = some d4 → hex_digit c5 = some d5 → hex_digit c6 = some d6 →
      hex_digit c7 = some d7 →
      parse_hex [c0, c1, c2, c3, c4, c5, c6, c7] =
        some ⟨(16 * d0 + d1 : ℚ) / 255, (16 * d2 + d3 : ℚ) / 255,
          (16 * d4 + d5 : ℚ) / 255, (16 * d6 + d7 : ℚ) / 255⟩) ∧
    (∀ c0 c1 c2 : Nat, (hex_digit c0).isSome = true → (hex_digit c1).isSome = true →
      (hex_digit c2).isSome = true →
      parse_css_color [35, c0, c1, c2] = parse_css_color [35, c0, c0, c1, c1, c2, c2]) :=
  ⟨parse_css_color_hash, hex_isSome_iff,
    fun _ _ _ _ _ _ h0 h1 h2 => hex3_eq h0 h1 h2,
    fun _ _ _ _ _ _ _ _ h0 h1 h2 h3 => hex4_eq h0 h1 h2 h3,
    fun _ _ _ _ _ _ _ _ _ _ _ _ h0 h1 h2 h3 h4 h5 => hex6_eq h0 h1 h2 h3 h4 h5,
    fun _ _ _ _ _ _ _ _ _ _ _ _ _ _ _ _ h0 h1 h2 h3 h4 h5 h6 h7 =>
      hex8_eq h0 h1 h2 h3 h4 h5 h6 h7,
    fun _ _ _ h0 h1 h2 => hex_dup h0 h1 h2⟩

/-- Witness for C3 at the concrete input `"#123"` = `"#112233"`. -/
theorem spec_C3_witness :
    hex_digit 49 = some 1 ∧
    parse_hex [49, 50, 51] = some ⟨(17 * 1 : ℚ) / 255, (17 * 2 : ℚ) / 255,
      (17 * 3 : ℚ) / 255, 1⟩ ∧
    parse_css_color [35, 49, 50, 51] = parse_css_color [35, 49, 49, 50, 50, 51, 51] :=
  ⟨by decide, spec_C3.2.2.1 49 50 51 1 2 3 (by decide) (by decide) (by decide),
    spec_C3.2.2.2.2.2.2 49 50 51 (by decide) (by decide) (by decide)⟩

/-! ## C7: the clamp on the full f32 domain -/

/-- **C7 (counterexample).** The claim says the clamp is not NaN-propagating
and maps NaN into [0,1]; but the source's `value.clamp(0., 1.)` is Rust's
`f32::clamp`, whose two comparisons are both false for NaN, so NaN is
returned unchanged and the result is not in the unit interval. -/
theorem spec_C7_cex :
    clamp_unit_F32 F32.nan = F32.nan ∧ ¬ F32.mem_unit (clamp_unit_F32 F32.nan) :=
  ⟨rfl, fun h => h⟩

/-- **C7 (amended).** The clamp maps every non-NaN f32 (including the two
infinities) into [0,1]; it propagates NaN; on finite values it agrees with
the exact rational clamp, which is bounded by [0,1]. -/
theorem spec_C7 :
    (∀ value : F32, value ≠ F32.nan → F32.mem_unit (clamp_unit_F32 value)) ∧
    (∀ value : ℚ, clamp_unit_F32 (F32.finite value) = F32.finite (clamp_unit_f32 value)) ∧
    (∀ value : ℚ, 0 ≤ clamp_unit_f32 value ∧ clamp_unit_f32 value ≤ 1) := by
  refine ⟨?_, ?_, ?_⟩
  · intro v hv
    cases v with
    | nan => exact absurd rfl hv
    | negInf => norm_num [clamp_unit_F32, F32.lt, F32.mem_unit]
    | posInf => norm_num [clamp_unit_F32, F32.lt, F32.mem_unit]
    | finite q =>
      by_cases h0 : q < 0
      · norm_num [clamp_unit_F32, F32.lt, F32.mem_unit, h0]
      · by_cases h1 : 1 < q
        · norm_num [clamp_unit_F32, F32.lt, F32.mem_unit, h0, h1]
        · norm_num [clamp_unit_F32, F32.lt, F32.mem_unit, h0, h1]
          constructor <;> linarith
  · intro q
    by_cases h0 : q < 0
    · norm_num [clamp_unit_F32, clamp_unit_f32, F32.lt, h0]
    · by_cases h1 : 1 < q
      · norm_num [clamp_unit_F32, clamp_unit_f32, F32.lt, h0, h1]
      · norm_num [clamp_unit_F32, clamp_unit_f32, F32.lt, h0, h1]
  · intro q
    unfold clamp_unit_f32
    split_ifs <;> constructor <;> linarith

/-- Witness for C7 (amended) at the concrete non-NaN input `+∞`. -/
theorem spec_C7_witness : F32.mem_unit (clamp_unit_F32 F32.posInf) :=
  spec_C7.1 F32.posInf (by decide)

/-! ## Named-color lookup lemmas -/

theorem to_ascii_lowercase_small {c : Nat} (h : c < 65) : to_ascii_lowercase c = c := by
  unfold to_ascii_lowercase
  split <;> omega

theorem to_ascii_lowercase_idem (c : Nat) :
    to_ascii_lowercase (to_ascii_lowercase c) = to_ascii_lowercase c := by
  unfold to_ascii_lowercase
  split <;> first
  | rfl
  | (split <;> omega)

theorem named_colors_heads :
    (named_colors.all fun p =>
      match p.1 with
      | k :: _ => decide (97 ≤ k ∧ k ≤ 122)
      | [] => false) = true := by decide

theorem lookup_color_none_of_head {c : Nat} (name' : List Nat)
    (tbl : List (List Nat × Srgb))
    (htbl : (tbl.all fun p =>
      match p.1 with
      | k :: _ => decide (97 ≤ k ∧ k ≤ 122)
      | [] => false) = true)
    (hc : c < 97 ∨ 122 < c) :
    lookup_color (c :: name') tbl = none := by
  induction tbl with
  | nil => rfl
  | cons p rest ih =>
    rw [List.all_cons, Bool.and_eq_true] at htbl
    obtain ⟨hp, hrest⟩ := htbl
    obtain ⟨key, color⟩ := p
    cases key with
    | nil => simp at hp
    | cons k kt =>
      have hk : 97 ≤ k ∧ k ≤ 122 := by simpa using hp
      unfold lookup_color
      rw [if_neg, ih hrest]
      intro hcontra
      have : c = k := (List.cons.injEq .. ▸ hcontra).1
      omega

theorem consume_function_none_small_head {c k : Nat} {input nt : List Nat}
    (hk : to_ascii_lowercase k = k) (hc : c < 65) (hck : c ≠ k) :
    consume_function (c :: input) (k :: nt) = none := by
  apply consume_function_none_of_idx 0 (by simp)
  simp [to_ascii_lowercase_small hc, hk]
  exact hck

/-- Any input whose first byte is CSS whitespace fails every production. -/
theorem parse_css_color_ws_head {c : Nat} (input : List Nat)
    (hw : is_whitespace c = true) : parse_css_color (c :: input) = none := by
  have hc : c = 32 ∨ c = 10 ∨ c = 9 ∨ c = 13 ∨ c = 12 := by
    simpa [is_whitespace] using hw
  have h35 : consume_byte (c :: input) 35 = none := by
    rw [consume_byte_none]
    simp only [List.getElem?_cons_zero]
    intro hcontra
    have : c = 35 := by simpa using hcontra
    omega
  have hrgb : consume_function (c :: input) [114, 103, 98] = none :=
    consume_function_none_small_head rfl (by omega) (by omega)
  have hrgba : consume_function (c :: input) [114, 103, 98, 97] = none :=
    consume_function_none_small_head rfl (by omega) (by omega)
  have hhsl : consume_function (c :: input) [104, 115, 108] = none :=
    consume_function_none_small_head rfl (by omega) (by omega)
  have hhsla : consume_function (c :: input) [104, 115, 108, 97] = none :=
    consume_function_none_small_head rfl (by omega) (by omega)
  have hhwb : consume_function (c :: input) [104, 119, 98] = none :=
    consume_function_none_small_head rfl (by omega) (by omega)
  simp only [parse_css_color, h35, hrgb, hrgba, hhsl, hhsla, hhwb]
  unfold parse_named
  split
  · rfl
  · have hmap : (c :: input).map to_ascii_lowercase =
        c :: input.map to_ascii_lowercase := by
      simp [to_ascii_lowercase_small (show c < 65 by omega)]
    rw [hmap]
    exact lookup_color_none_of_head _ _ named_colors_heads (by omega)

/-- **C8.** Named-color lookup: inputs longer than 20 bytes fail immediately;
lookup is performed on the lowercased input (so it is case-insensitive) against
the table including `transparent` (0,0,0,0 with alpha 0); `"RebeccaPurple"`
parses and equals `rgb(102 51 153)`, while the truncated and extended names
both fail. -/
theorem spec_C8 :
    (∀ input, NAMED_MAX_LEN < input.length → parse_named input = none) ∧
    (∀ input, parse_named (input.map to_ascii_lowercase) = parse_named input) ∧
    parse_named (bs "transparent") = some (Srgb.mk 0 0 0 0) ∧
    parse_css_color (bs "RebeccaPurple") = parse_css_color (bs "rgb(102 51 153)") ∧
    parse_css_color (bs "rebeccapurpl") = none ∧
    parse_css_color (bs "rebeccapurplee") = none := by
  refine ⟨?_, ?_, ?_, ?_, ?_, ?_⟩
  · intro input h
    simp [parse_named, h]
  · intro input
    have hlen : (input.map to_ascii_lowercase).length = input.length := by simp
    have hmap : (input.map to_ascii_lowercase).map to_ascii_lowercase =
        input.map to_ascii_lowercase := by
      rw [List.map_map]
      exact List.map_congr_left fun c _ => to_ascii_lowercase_idem c
    simp only [parse_named, hlen, hmap]
  · decide
  · have h1 : bs "RebeccaPurple" = [82, 101, 98, 101, 99, 99, 97, 80, 117, 114, 112, 108, 101] := by decide
    have h2 : bs "rgb(102 51 153)" = [114, 103, 98, 40, 49, 48, 50, 32, 53, 49, 32, 49, 53, 51, 41] := by decide
    rw [h1, h2]
    simp +decide [parse_css_color, parse_hex, parse_rgb, parse_hsl, parse_hwb, parse_named,
    lookup_color, named_colors, rgb_finish, rgb_legacy_number, rgb_legacy_percentage,
    rgb_modern, rgb_modern_channel, parse_hsl_hue, parse_hwb_hue, hsl_sl, hsl_sl_legacy, hsl_sl_modern, number_percentage_none,
    parse_alpha_tail, parse_alpha_sep, parse_alpha_value, parse_number_or_percentage,
    parse_number_percentage, parse_percentage, parse_hue, parse_number, consume_number,
    consume_digits, skip_digits, skip_sign, eval_number_token, digits_val, consume_name,
    consume_none, consume_function, consume_byte, no_name_at, eq_ignore_ascii_case,
    to_ascii_lowercase, skip_ws, is_whitespace, is_ident_start, is_name, is_name_start,
    digit, hex_digit, NONE, F32_TWO_PI, clamp_unit_f32, normalize_hue, srgb_of_hsla,
    srgb_of_hwba, hsl_hue_to_rgb, hwb_hue_to_rgb, Srgb.from_rgb8, Srgb.from_rgba8,
    NAMED_MAX_LEN]
    all_goals norm_num
  · decide
  · decide

/-- Witness for C8 at a concrete 21-byte input. -/
theorem spec_C8_witness :
    NAMED_MAX_LEN < (List.replicate 21 97).length ∧
      parse_named (List.replicate 21 97) = none :=
  ⟨by decide, spec_C8.1 (List.replicate 21 97) (by decide)⟩

/-- **C9.** The entry point rejects the empty string, any input with leading
whitespace, and any trailing bytes after the closing parenthesis of a
function form. -/
theorem spec_C9 :
    parse_css_color [] = none ∧
    (∀ c input, is_whitespace c = true → parse_css_color (c :: input) = none) ∧
    parse_css_color (bs " hsl(0 0% 0%)") = none ∧
    parse_css_color (bs "hsl(0 0% 0%) ") = none ∧
    (∀ extra, extra ≠ [] → parse_css_color (bs "hsl(0 0% 0%)" ++ extra) = none) := by
  refine ⟨by decide, fun c input hw => parse_css_color_ws_head input hw, by decide, ?_, ?_⟩
  · decide
  · intro extra hne
    have h1 : bs "hsl(0 0% 0%)" = [104, 115, 108, 40, 48, 32, 48, 37, 32, 48, 37, 41] := by decide
    rw [h1]
    simp +decide [parse_css_color, parse_hex, parse_rgb, parse_hsl, parse_hwb, parse_named,
    lookup_color, named_colors, rgb_finish, rgb_legacy_number, rgb_legacy_percentage,
    rgb_modern, rgb_modern_channel, parse_hsl_hue, parse_hwb_hue, hsl_sl, hsl_sl_legacy, hsl_sl_modern, number_percentage_none,
    parse_alpha_tail, parse_alpha_sep, parse_alpha_value, parse_number_or_percentage,
    parse_number_percentage, parse_percentage, parse_hue, parse_number, consume_number,
    consume_digits, skip_digits, skip_sign, eval_number_token, digits_val, consume_name,
    consume_none, consume_function, consume_byte, no_name_at, eq_ignore_ascii_case,
    to_ascii_lowercase, skip_ws, is_whitespace, is_ident_start, is_name, is_name_start,
    digit, hex_digit, NONE, F32_TWO_PI, clamp_unit_f32, normalize_hue, srgb_of_hsla,
    srgb_of_hwba, hsl_hue_to_rgb, hwb_hue_to_rgb, Srgb.from_rgb8, Srgb.from_rgba8,
    NAMED_MAX_LEN, hne]

/-- Witness for C9: leading-whitespace and trailing-byte rejection at concrete
inputs. -/
theorem spec_C9_witness :
    is_whitespace 32 = true ∧ parse_css_color [32] = none ∧
      ([41] : List Nat) ≠ [] ∧ parse_css_color (bs "hsl(0 0% 0%)" ++ [41]) = none :=
  ⟨by decide, spec_C9.2.1 32 [] (by decide), by decide,
    spec_C9.2.2.2.2 [41] (by decide)⟩

/-! ## Hue lemmas -/

theorem is_ident_start_cons_letter {c : Nat} (t : List Nat)
    (h : (97 ≤ c ∧ c ≤ 122) ∨ (65 ≤ c ∧ c ≤ 90)) :
    is_ident_start (c :: t) = true := by
  unfold is_ident_start
  simp only [List.getElem?_cons_zero]
  split
  · next heq => injection heq with heq; omega
  · next c' heq =>
    injection heq with heq
    subst heq
    simp [is_name_start]
    omega
  · next heq => exact absurd heq (by simp)

theorem consume_name_cons_head {input rest nt : List Nat} {k : Nat}
    (h : consume_name input (k :: nt) = some rest) :
    ∃ c t, input = c :: t ∧ to_ascii_lowercase c = to_ascii_lowercase k := by
  have h0 := consume_name_idx 0 h (by simp)
  rw [show ((k :: nt : List Nat))[0]? = some k by simp] at h0
  exact head_lower h0

theorem consume_name_none_of_head {c k : Nat} {t nt : List Nat}
    (hne : to_ascii_lowercase c ≠ to_ascii_lowercase k) :
    consume_name (c :: t) (k :: nt) = none := by
  apply consume_name_none_of_idx 0 (by simp)
  simpa using hne

theorem consume_function_none_of_head {c k : Nat} {t nt : List Nat}
    (hne : to_ascii_lowercase c ≠ to_ascii_lowercase k) :
    consume_function (c :: t) (k :: nt) = none := by
  apply consume_function_none_of_idx 0 (by simp)
  simpa using hne

theorem ident_start_of_lower_letter {input : List Nat} {c : Nat} {t : List Nat} {k : Nat}
    (hin : input = c :: t) (hl : to_ascii_lowercase c = k) (h97 : 97 ≤ k)
    (h122 : k ≤ 122) : is_ident_start input = true := by
  subst hin
  rcases to_ascii_lowercase_cases hl with h | h
  · exact is_ident_start_cons_letter t (Or.inl (by omega))
  · exact is_ident_start_cons_letter t (Or.inr (by omega))

/-- **C4.** Hue tokens: the parsed number is divided by 360 when unitless or
suffixed `deg`, by 400 for `grad`, by the f32 value of 2π for `rad`, and left
unscaled for `turn`; `normalize_hue` is `v - ⌊v⌋` and lands in [0,1); 400
gradians, one turn and zero denote the same hue. -/
theorem spec_C4 :
    (∀ input rest v, parse_number input = some (rest, v) → is_ident_start rest = false →
      parse_hue input = some (rest, v / 360)) ∧
    (∀ input rest rest2 v, parse_number input = some (rest, v) →
      consume_name rest [100, 101, 103] = some rest2 →
      parse_hue input = some (rest2, v / 360)) ∧
    (∀ input rest rest2 v, parse_number input = some (rest, v) →
      consume_name rest [103, 114, 97, 100] = some rest2 →
      parse_hue input = some (rest2, v / 400)) ∧
    (∀ input rest rest2 v, parse_number input = some (rest, v) →
      consume_name rest [114, 97, 100] = some rest2 →
      parse_hue input = some (rest2, v / F32_TWO_PI)) ∧
    (∀ input rest rest2 v, parse_number input = some (rest, v) →
      consume_name rest [116, 117, 114, 110] = some rest2 →
      parse_hue input = some (rest2, v)) ∧
    (∀ v : ℚ, normalize_hue v = v - ⌊v⌋ ∧ 0 ≤ normalize_hue v ∧ normalize_hue v < 1) ∧
    parse_css_color (bs "hsl(400grad 0% 0%)") = parse_css_color (bs "hsl(0 0% 0%)") ∧
    parse_css_color (bs "hsl(1turn 0% 0%)") = parse_css_color (bs "hsl(0 0% 0%)") := by
  refine ⟨?_, ?_, ?_, ?_, ?_, ?_, ?_, ?_⟩
  · intro input rest v h hid
    simp [parse_hue, h, hid]
  · intro input rest rest2 v h hdeg
    obtain ⟨c, t, hin, hl⟩ := consume_name_cons_head hdeg
    have hid : is_ident_start rest = true :=
      ident_start_of_lower_letter hin hl (by decide) (by decide)
    simp [parse_hue, h, hid, hdeg]
  · intro input rest rest2 v h hgrad
    obtain ⟨c, t, hin, hl⟩ := consume_name_cons_head hgrad
    have hid : is_ident_start rest = true :=
      ident_start_of_lower_letter hin hl (by decide) (by decide)
    have hdeg : consume_name rest [100, 101, 103] = none := by
      subst hin
      exact consume_name_none_of_head (by rw [hl]; decide)
    simp [parse_hue, h, hid, hdeg, hgrad]
  · intro input rest rest2 v h hrad
    obtain ⟨c, t, hin, hl⟩ := consume_name_cons_head hrad
    have hid : is_ident_start rest = true :=
      ident_start_of_lower_letter hin hl (by decide) (by decide)
    have hdeg : consume_name rest [100, 101, 103] = none := by
      subst hin
      exact consume_name_none_of_head (by rw [hl]; decide)
    have hgrad : consume_name rest [103, 114, 97, 100] = none := by
      exact hin ▸ consume_name_none_of_head (by rw [hl]; decide)
    simp [parse_hue, h, hid, hdeg, hgrad, hrad]
  · intro input rest rest2 v h hturn
    obtain ⟨c, t, hin, hl⟩ := consume_name_cons_head hturn
    have hid : is_ident_start rest = true :=
      ident_start_of_lower_letter hin hl (by decide) (by decide)
    have hdeg : consume_name rest [100, 101, 103] = none := by
      exact hin ▸ consume_name_none_of_head (by rw [hl]; decide)
    have hgrad : consume_name rest [103, 114, 97, 100] = none := by
      exact hin ▸ consume_name_none_of_head (by rw [hl]; decide)
    have hrad : consume_name rest [114, 97, 100] = none := by
      exact hin ▸ consume_name_none_of_head (by rw [hl]; decide)
    simp [parse_hue, h, hid, hdeg, hgrad, hrad, hturn]
  · intro v
    refine ⟨rfl, ?_, ?_⟩
    · have := Int.floor_le v
      unfold normalize_hue
      linarith
    · have := Int.lt_floor_add_one v
      unfold normalize_hue
      push_cast
      linarith
  · have h1 : bs "hsl(400grad 0% 0%)" = [104, 115, 108, 40, 52, 48, 48, 103, 114, 97, 100, 32, 48, 37, 32, 48, 37, 41] := by decide
    have h2 : bs "hsl(0 0% 0%)" = [104, 115, 108, 40, 48, 32, 48, 37, 32, 48, 37, 41] := by decide
    rw [h1, h2]
    simp +decide [parse_css_color, parse_hex, parse_rgb, parse_hsl, parse_hwb, parse_named,
    lookup_color, named_colors, rgb_finish, rgb_legacy_number, rgb_legacy_percentage,
    rgb_modern, rgb_modern_channel, parse_hsl_hue, parse_hwb_hue, hsl_sl, hsl_sl_legacy, hsl_sl_modern, number_percentage_none,
    parse_alpha_tail, parse_alpha_sep, parse_alpha_value, parse_number_or_percentage,
    parse_number_percentage, parse_percentage, parse_hue, parse_number, consume_number,
    consume_digits, skip_digits, skip_sign, eval_number_token, digits_val, consume_name,
    consume_none, consume_function, consume_byte, no_name_at, eq_ignore_ascii_case,
    to_ascii_lowercase, skip_ws, is_whitespace, is_ident_start, is_name, is_name_start,
    digit, hex_digit, NONE, F32_TWO_PI, clamp_unit_f32, normalize_hue, srgb_of_hsla,
    srgb_of_hwba, hsl_hue_to_rgb, hwb_hue_to_rgb, Srgb.from_rgb8, Srgb.from_rgba8,
    NAMED_MAX_LEN]
    all_goals norm_num
  · have h1 : bs "hsl(1turn 0% 0%)" = [104, 115, 108, 40, 49, 116, 117, 114, 110, 32, 48, 37, 32, 48, 37, 41] := by decide
    have h2 : bs "hsl(0 0% 0%)" = [104, 115, 108, 40, 48, 32, 48, 37, 32, 48, 37, 41] := by decide
    rw [h1, h2]
    simp +decide [parse_css_color, parse_hex, parse_rgb, parse_hsl, parse_hwb, parse_named,
    lookup_color, named_colors, rgb_finish, rgb_legacy_number, rgb_legacy_percentage,
    rgb_modern, rgb_modern_channel, parse_hsl_hue, parse_hwb_hue, hsl_sl, hsl_sl_legacy, hsl_sl_modern, number_percentage_none,
    parse_alpha_tail, parse_alpha_sep, parse_alpha_value, parse_number_or_percentage,
    parse_number_percentage, parse_percentage, parse_hue, parse_number, consume_number,
    consume_digits, skip_digits, skip_sign, eval_number_token, digits_val, consume_name,
    consume_none, consume_function, consume_byte, no_name_at, eq_ignore_ascii_case,
    to_ascii_lowercase, skip_ws, is_whitespace, is_ident_start, is_name, is_name_start,
    digit, hex_digit, NONE, F32_TWO_PI, clamp_unit_f32, normalize_hue, srgb_of_hsla,
    srgb_of_hwba, hsl_hue_to_rgb, hwb_hue_to_rgb, Srgb.from_rgb8, Srgb.from_rgba8,
    NAMED_MAX_LEN]
    all_goals norm_num

/-- Witness for C4: the `deg` unit at the concrete input `"90deg)"`. -/
theorem spec_C4_witness :
    parse_hue [57, 48, 100, 101, 103, 41] = some ([41], (90 : ℚ) / 360) :=
  spec_C4.2.1 [57, 48, 100, 101, 103, 41] [100, 101, 103, 41] [41] 90
    (by norm_num [parse_number, consume_number, consume_digits, skip_digits, skip_sign,
      digit, eval_number_token, digits_val])
    (by decide)

/-! ## C6: modern rgb() channel scaling -/

/-- **C6 (counterexample).** The claim says a modern bare-number channel is
used directly (so `rgb(51 0 0)` would clamp 51 to red = 1); the code divides
it by 255, yielding red = 51/255. -/
theorem spec_C6_cex :
    parse_css_color (bs "rgb(51 0 0)") = some (Srgb.mk ((51 : ℚ) / 255) 0 0 1) ∧
    Srgb.mk ((51 : ℚ) / 255) 0 0 1 ≠ Srgb.mk (clamp_unit_f32 51) 0 0 1 := by
  constructor
  · have h1 : bs "rgb(51 0 0)" = [114, 103, 98, 40, 53, 49, 32, 48, 32, 48, 41] := by decide
    rw [h1]
    simp +decide [parse_css_color, parse_hex, parse_rgb, parse_hsl, parse_hwb, parse_named,
    lookup_color, named_colors, rgb_finish, rgb_legacy_number, rgb_legacy_percentage,
    rgb_modern, rgb_modern_channel, parse_hsl_hue, parse_hwb_hue, hsl_sl, hsl_sl_legacy, hsl_sl_modern, number_percentage_none,
    parse_alpha_tail, parse_alpha_sep, parse_alpha_value, parse_number_or_percentage,
    parse_number_percentage, parse_percentage, parse_hue, parse_number, consume_number,
    consume_digits, skip_digits, skip_sign, eval_number_token, digits_val, consume_name,
    consume_none, consume_function, consume_byte, no_name_at, eq_ignore_ascii_case,
    to_ascii_lowercase, skip_ws, is_whitespace, is_ident_start, is_name, is_name_start,
    digit, hex_digit, NONE, F32_TWO_PI, clamp_unit_f32, normalize_hue, srgb_of_hsla,
    srgb_of_hwba, hsl_hue_to_rgb, hwb_hue_to_rgb, Srgb.from_rgb8, Srgb.from_rgba8,
    NAMED_MAX_LEN]
    all_goals norm_num
  · intro hcontra
    rw [Srgb.mk.injEq] at hcontra
    have h51 : clamp_unit_f32 51 = 1 := by norm_num [clamp_unit_f32]
    rw [h51] at hcontra
    norm_num at hcontra

/-- **C6 (amended).** In modern rgb()/rgba() syntax a bare-number channel is
divided by 255 (just like the legacy scale), a percentage channel by 100;
the modern tail receives the first bare-number channel already divided
by 255. -/
theorem spec_C6 :
    (∀ input rest v, parse_number input = some (rest, v) → consume_byte rest 37 = none →
      rgb_modern_channel input = some (skip_ws rest, v / 255)) ∧
    (∀ input rest rest2 v, parse_number input = some (rest, v) →
      consume_byte rest 37 = some rest2 →
      rgb_modern_channel input = some (skip_ws rest2, v / 100)) ∧
    (∀ input rest v,
      parse_number_or_percentage input = some (rest, NumberOrPercentage.Number v) →
      (skip_ws rest)[0]? ≠ some 44 →
      parse_rgb input = rgb_modern (skip_ws rest) (v / 255)) := by
  refine ⟨?_, ?_, ?_⟩
  · intro input rest v h hb
    simp [rgb_modern_channel, parse_number_or_percentage, h, hb]
  · intro input rest rest2 v h hb
    simp [rgb_modern_channel, parse_number_or_percentage, h, hb]
  · intro input rest v h hc
    have step : parse_rgb input =
        match (skip_ws rest)[0]? with
        | some 44 => rgb_legacy_number (skip_ws ((skip_ws rest).drop 1)) (v / 255)
        | _ => rgb_modern (skip_ws rest) (v / 255) := by
      unfold parse_rgb
      rw [h]
    rw [step]
    split
    · next heq => exact absurd heq hc
    · rfl

/-- Witness for C6 (amended) at the concrete channel input `"51)"`. -/
theorem spec_C6_witness :
    rgb_modern_channel [53, 49, 41] = some (skip_ws [41], (51 : ℚ) / 255) :=
  spec_C6.1 [53, 49, 41] [41] 51
    (by norm_num [parse_number, consume_number, consume_digits, skip_digits, skip_sign,
      digit, eval_number_token, digits_val])
    (by decide)

/-! ## C10: numbers accepted where percentages are expected -/

/-- **C10.** In modern hsl()/hsla() and hwb(), a bare number in a
saturation/lightness/whiteness/blackness slot is interpreted exactly like a
percentage: `parse_number_percentage` divides by 100 whether or not a `%`
follows; hence `hsl(0 50 50)` = `hsl(0 50% 50%)` and similarly for hwb(). -/
theorem spec_C10 :
    (∀ input rest v, parse_number input = some (rest, v) → consume_byte rest 37 = none →
      parse_number_percentage input = some (rest, v / 100)) ∧
    (∀ input rest rest2 v, parse_number input = some (rest, v) →
      consume_byte rest 37 = some rest2 →
      parse_number_percentage input = some (rest2, v / 100)) ∧
    parse_css_color (bs "hsl(0 50 50)") = parse_css_color (bs "hsl(0 50% 50%)") ∧
    parse_css_color (bs "hwb(120 30 40)") = parse_css_color (bs "hwb(120 30% 40%)") := by
  refine ⟨?_, ?_, ?_, ?_⟩
  · intro input rest v h hb
    simp [parse_number_percentage, h, hb]
  · intro input rest rest2 v h hb
    simp [parse_number_percentage, h, hb]
  · have h1 : bs "hsl(0 50 50)" = [104, 115, 108, 40, 48, 32, 53, 48, 32, 53, 48, 41] := by decide
    have h2 : bs "hsl(0 50% 50%)" = [104, 115, 108, 40, 48, 32, 53, 48, 37, 32, 53, 48, 37, 41] := by decide
    rw [h1, h2]
    simp +decide [parse_css_color, parse_hex, parse_rgb, parse_hsl, parse_hwb, parse_named,
    lookup_color, named_colors, rgb_finish, rgb_legacy_number, rgb_legacy_percentage,
    rgb_modern, rgb_modern_channel, parse_hsl_hue, parse_hwb_hue, hsl_sl, hsl_sl_legacy, hsl_sl_modern, number_percentage_none,
    parse_alpha_tail, parse_alpha_sep, parse_alpha_value, parse_number_or_percentage,
    parse_number_percentage, parse_percentage, parse_hue, parse_number, consume_number,
    consume_digits, skip_digits, skip_sign, eval_number_token, digits_val, consume_name,
    consume_none, consume_function, consume_byte, no_name_at, eq_ignore_ascii_case,
    to_ascii_lowercase, skip_ws, is_whitespace, is_ident_start, is_name, is_name_start,
    digit, hex_digit, NONE, F32_TWO_PI, clamp_unit_f32, normalize_hue, srgb_of_hsla,
    srgb_of_hwba, hsl_hue_to_rgb, hwb_hue_to_rgb, Srgb.from_rgb8, Srgb.from_rgba8,
    NAMED_MAX_LEN]
    all_goals norm_num
  · have h1 : bs "hwb(120 30 40)" = [104, 119, 98, 40, 49, 50, 48, 32, 51, 48, 32, 52, 48, 41] := by decide
    have h2 : bs "hwb(120 30% 40%)" = [104, 119, 98, 40, 49, 50, 48, 32, 51, 48, 37, 32, 52, 48, 37, 41] := by decide
    rw [h1, h2]
    simp +decide [parse_css_color, parse_hex, parse_rgb, parse_hsl, parse_hwb, parse_named,
    lookup_color, named_colors, rgb_finish, rgb_legacy_number, rgb_legacy_percentage,
    rgb_modern, rgb_modern_channel, parse_hsl_hue, parse_hwb_hue, hsl_sl, hsl_sl_legacy, hsl_sl_modern, number_percentage_none,
    parse_alpha_tail, parse_alpha_sep, parse_alpha_value, parse_number_or_percentage,
    parse_number_percentage, parse_percentage, parse_hue, parse_number, consume_number,
    consume_digits, skip_digits, skip_sign, eval_number_token, digits_val, consume_name,
    consume_none, consume_function, consume_byte, no_name_at, eq_ignore_ascii_case,
    to_ascii_lowercase, skip_ws, is_whitespace, is_ident_start, is_name, is_name_start,
    digit, hex_digit, NONE, F32_TWO_PI, clamp_unit_f32, normalize_hue, srgb_of_hsla,
    srgb_of_hwba, hsl_hue_to_rgb, hwb_hue_to_rgb, Srgb.from_rgb8, Srgb.from_rgba8,
    NAMED_MAX_LEN]
    all_goals norm_num

/-- Witness for C10 at the concrete component input `"50)"`. -/
theorem spec_C10_witness :
    parse_number_percentage [53, 48, 41] = some ([41], (50 : ℚ) / 100) :=
  spec_C10.1 [53, 48, 41] [41] 50
    (by norm_num [parse_number, consume_number, consume_digits, skip_digits, skip_sign,
      digit, eval_number_token, digits_val])
    (by decide)

/-! ## Dispatcher lemmas -/

theorem idx_lower {input : List Nat} {i k : Nat}
    (h : Option.map to_ascii_lowercase input[i]? = some k) :
    ∃ c, input[i]? = some c ∧ to_ascii_lowercase c = k := by
  cases hx : input[i]? with
  | none => rw [hx] at h; simp at h
  | some c => rw [hx] at h; exact ⟨c, rfl, by simpa using h⟩

theorem consume_function_cons_head {input rest nt : List Nat} {k : Nat}
    (h : consume_function input (k :: nt) = some rest) :
    ∃ c t, input = c :: t ∧ to_ascii_lowercase c = to_ascii_lowercase k := by
  have h0 := consume_function_idx 0 h (by simp)
  rw [show ((k :: nt : List Nat))[0]? = some k by simp] at h0
  exact head_lower h0

theorem consume_function_none_of_idx1 {c0 c1 : Nat} {t nt : List Nat} {k0 k1 : Nat}
    (hne : to_ascii_lowercase c1 ≠ to_ascii_lowercase k1) :
    consume_function (c0 :: c1 :: t) (k0 :: k1 :: nt) = none := by
  apply consume_function_none_of_idx 1 (by simp)
  simpa using hne

theorem consume_function_none_of_not_paren {input name : List Nat}
    (h : ∀ c, input[name.length]? = some c → c ≠ 40) :
    consume_function input name = none := by
  simp only [consume_function]
  split
  · next hc =>
    simp only [Bool.and_eq_true, decide_eq_true_eq, beq_iff_eq] at hc
    exact absurd rfl (h 40 hc.2)
  · rfl

theorem consume_byte35_none_of_letter {input : List Nat} {c : Nat} {t : List Nat}
    (hin : input = c :: t) (h : 65 ≤ c) : consume_byte input 35 = none := by
  subst hin
  rw [consume_byte_none]
  simp only [List.getElem?_cons_zero]
  intro hcontra
  have : c = 35 := by simpa using hcontra
  omega

theorem head_letter_ge_65 {c k : Nat} (hl : to_ascii_lowercase c = k) (hk : 97 ≤ k) :
    65 ≤ c := by
  rcases to_ascii_lowercase_cases hl with h | h <;> omega

theorem rgb_none_of_rgba {input rest : List Nat}
    (h : consume_function input [114, 103, 98, 97] = some rest) :
    consume_function input [114, 103, 98] = none := by
  have h3 := consume_function_idx 3 h (by simp)
  rw [show (([114, 103, 98, 97] : List Nat))[3]? = some 97 by simp] at h3
  obtain ⟨c, hc, hlc⟩ := idx_lower h3
  apply consume_function_none_of_not_paren
  intro c' hc'
  rw [show (([114, 103, 98] : List Nat)).length = 3 from rfl] at hc'
  rw [hc] at hc'
  injection hc' with hcc
  intro hc40
  rw [hc40] at hcc
  rw [hcc] at hlc
  rw [show to_ascii_lowercase 40 = 40 from rfl] at hlc
  exact absurd hlc (by decide)

theorem hsl_none_of_hsla {input rest : List Nat}
    (h : consume_function input [104, 115, 108, 97] = some rest) :
    consume_function input [104, 115, 108] = none := by
  have h3 := consume_function_idx 3 h (by simp)
  rw [show (([104, 115, 108, 97] : List Nat))[3]? = some 97 by simp] at h3
  obtain ⟨c, hc, hlc⟩ := idx_lower h3
  apply consume_function_none_of_not_paren
  intro c' hc'
  rw [show (([104, 115, 108] : List Nat)).length = 3 from rfl] at hc'
  rw [hc] at hc'
  injection hc' with hcc
  intro hc40
  rw [hc40] at hcc
  rw [hcc] at hlc
  rw [show to_ascii_lowercase 40 = 40 from rfl] at hlc
  exact absurd hlc (by decide)

theorem consume_function_cons2 {input rest : List Nat} {k0 k1 : Nat} {nt : List Nat}
    (h : consume_function input (k0 :: k1 :: nt) = some rest) :
    ∃ c0 c1 t, input = c0 :: c1 :: t ∧
      to_ascii_lowercase c0 = to_ascii_lowercase k0 ∧
      to_ascii_lowercase c1 = to_ascii_lowercase k1 := by
  obtain ⟨c0, t, hin, hl0⟩ := consume_function_cons_head h
  have h1 := consume_function_idx 1 h (by simp)
  rw [show ((k0 :: k1 :: nt : List Nat))[1]? = some k1 by simp] at h1
  obtain ⟨c1', hc1, hl1⟩ := idx_lower h1
  subst hin
  cases t with
  | nil => simp at hc1
  | cons c1 t' =>
    have : c1 = c1' := by simpa using hc1
    subst this
    exact ⟨c0, c1, t', rfl, hl0, hl1⟩

/-- **C2.** The dispatcher tries `#`, then the function prefixes `rgb(`,
`rgba(`, `hsl(`, `hsla(`, `hwb(` (case-insensitively), and otherwise performs
the named-keyword lookup on the whole input; a matching prefix commits the
parse to that production (the result is exactly that production's result,
failure included, with no fallback). -/
theorem spec_C2 :
    (∀ input rest, consume_byte input 35 = some rest →
      parse_css_color input = parse_hex rest) ∧
    (∀ input rest, consume_function input [114, 103, 98] = some rest →
      parse_css_color input = parse_rgb rest) ∧
    (∀ input rest, consume_function input [114, 103, 98, 97] = some rest →
      parse_css_color input = parse_rgb rest) ∧
    (∀ input rest, consume_function input [104, 115, 108] = some rest →
      parse_css_color input = parse_hsl rest) ∧
    (∀ input rest, consume_function input [104, 115, 108, 97] = some rest →
      parse_css_color input = parse_hsl rest) ∧
    (∀ input rest, consume_function input [104, 119, 98] = some rest →
      parse_css_color input = parse_hwb rest) ∧
    (∀ input, consume_byte input 35 = none →
      consume_function input [114, 103, 98] = none →
      consume_function input [114, 103, 98, 97] = none →
      consume_function input [104, 115, 108] = none →
      consume_function input [104, 115, 108, 97] = none →
      consume_function input [104, 119, 98] = none →
      parse_css_color input = parse_named input) := by
  refine ⟨?_, ?_, ?_, ?_, ?_, ?_, ?_⟩
  · intro input rest h
    simp [parse_css_color, h]
  · intro input rest h
    obtain ⟨c, t, hin, hl⟩ := consume_function_cons_head h
    have hhash := consume_byte35_none_of_letter hin (head_letter_ge_65 hl (by decide))
    simp only [parse_css_color, hhash, h]
  · intro input rest h
    obtain ⟨c, t, hin, hl⟩ := consume_function_cons_head h
    have hhash := consume_byte35_none_of_letter hin (head_letter_ge_65 hl (by decide))
    have hrgb := rgb_none_of_rgba h
    simp only [parse_css_color, hhash, hrgb, h]
  · intro input rest h
    obtain ⟨c, t, hin, hl⟩ := consume_function_cons_head h
    have hhash := consume_byte35_none_of_letter hin (head_letter_ge_65 hl (by decide))
    have hrgb : consume_function input [114, 103, 98] = none :=
      hin ▸ consume_function_none_of_head (by rw [hl]; decide)
    have hrgba : consume_function input [114, 103, 98, 97] = none :=
      hin ▸ consume_function_none_of_head (by rw [hl]; decide)
    simp only [parse_css_color, hhash, hrgb, hrgba, h]
  · intro input rest h
    obtain ⟨c, t, hin, hl⟩ := consume_function_cons_head h
    have hhash := consume_byte35_none_of_letter hin (head_letter_ge_65 hl (by decide))
    have hrgb : consume_function input [114, 103, 98] = none :=
      hin ▸ consume_function_none_of_head (by rw [hl]; decide)
    have hrgba : consume_function input [114, 103, 98, 97] = none :=
      hin ▸ consume_function_none_of_head (by rw [hl]; decide)
    have hhsl := hsl_none_of_hsla h
    simp only [parse_css_color, hhash, hrgb, hrgba, hhsl, h]
  · intro input rest h
    obtain ⟨c0, c1, t, hin, hl0, hl1⟩ := consume_function_cons2 h
    have hhash := consume_byte35_none_of_letter hin (head_letter_ge_65 hl0 (by decide))
    have hrgb : consume_function input [114, 103, 98] = none :=
      hin ▸ consume_function_none_of_head (by rw [hl0]; decide)
    have hrgba : consume_function input [114, 103, 98, 97] = none :=
      hin ▸ consume_function_none_of_head (by rw [hl0]; decide)
    have hhsl : consume_function input [104, 115, 108] = none :=
      hin ▸ consume_function_none_of_idx1 (by rw [hl1]; decide)
    have hhsla : consume_function input [104, 115, 108, 97] = none :=
      hin ▸ consume_function_none_of_idx1 (by rw [hl1]; decide)
    simp only [parse_css_color, hhash, hrgb, hrgba, hhsl, hhsla, h]
  · intro input h35 hrgb hrgba hhsl hhsla hhwb
    simp only [parse_css_color, h35, hrgb, hrgba, hhsl, hhsla, hhwb]

/-- Witness for C2: the `hwb(` prefix commits to the hwb production at the
concrete input `"hwb(#)"` (whose body then fails, and the whole parse with
it). -/
theorem spec_C2_witness :
    parse_css_color [104, 119, 98, 40, 35, 41] = parse_hwb [35, 41] ∧
      parse_hwb [35, 41] = none :=
  ⟨spec_C2.2.2.2.2.2.1 [104, 119, 98, 40, 35, 41] [35, 41] (by decide), by decide⟩

/-! ## C5: legacy vs modern rgb() -/

theorem digit_none {c : Nat} (h : c < 48 ∨ 57 < c) : digit c = none := by
  unfold digit
  rw [if_neg (by omega : ¬(48 ≤ c ∧ c ≤ 57))]

theorem parse_number_none_of_none_kw {s rest : List Nat}
    (h : consume_none s = some rest) : parse_number s = none := by
  have h' : consume_name s [110, 111, 110, 101] = some rest := h
  obtain ⟨c, t, hin, hl⟩ := consume_name_cons_head h'
  rw [show to_ascii_lowercase 110 = 110 from rfl] at hl
  subst hin
  rcases to_ascii_lowercase_cases hl with h1 | h1
  · exact parse_number_none_head t (by omega) (by omega) (by omega)
      (digit_none (by omega))
  · exact parse_number_none_head t (by omega) (by omega) (by omega)
      (digit_none (by omega))

theorem parse_alpha_value_none_of_none_kw {s rest : List Nat}
    (h : consume_none s = some rest) : parse_alpha_value s = none := by
  simp [parse_alpha_value, parse_number_or_percentage, parse_number_none_of_none_kw h]

/-- **C5.** In rgb()/rgba(): a comma after the first channel selects legacy
syntax, which then requires matching tags on all three channels, commas
between channels, and no `none` anywhere (channels or alpha); without the
comma, modern syntax is selected, in which each channel is independently a
number, percentage or `none` (contributing 0), a comma fails, and alpha is
given only by an optional `/` (defaulting to 1 when absent). -/
theorem spec_C5 :
    (∀ input rest v,
      parse_number_or_percentage input = some (rest, NumberOrPercentage.Number v) →
      (skip_ws rest)[0]? = some 44 →
      parse_rgb input = rgb_legacy_number (skip_ws ((skip_ws rest).drop 1)) (v / 255)) ∧
    (∀ input rest v,
      parse_number_or_percentage input = some (rest, NumberOrPercentage.Percentage v) →
      (skip_ws rest)[0]? = some 44 →
      parse_rgb input = rgb_legacy_percentage (skip_ws ((skip_ws rest).drop 1)) v) ∧
    (∀ s red rest v, parse_number s = some (rest, v) → rest[0]? = some 37 →
      rgb_legacy_number s red = none) ∧
    (∀ s red rest v, parse_number s = some (rest, v) → rest[0]? ≠ some 37 →
      rgb_legacy_percentage s red = none) ∧
    (∀ s red rest v, parse_number s = some (rest, v) → (skip_ws rest)[0]? ≠ some 44 →
      rgb_legacy_number s red = none) ∧
    (∀ s red rest, consume_none s = some rest →
      rgb_legacy_number s red = none ∧ rgb_legacy_percentage s red = none) ∧
    (∀ s rest, s[0]? = some 44 → consume_none (skip_ws (s.drop 1)) = some rest →
      parse_alpha_tail s true = none) ∧
    (∀ s rest, consume_none s = some rest →
      rgb_modern_channel s = some (skip_ws rest, 0)) ∧
    (∀ s, s[0]? = some 44 → rgb_modern_channel s = none) ∧
    (∀ s r g b, s[0]? = some 44 → rgb_finish s false r g b = none) ∧
    (∀ r g b, rgb_finish [41] false r g b =
      some ⟨clamp_unit_f32 r, clamp_unit_f32 g, clamp_unit_f32 b, 1⟩) ∧
    (∀ s rest a r g b, s[0]? = some 47 →
      parse_alpha_value (skip_ws (s.drop 1)) = some (rest, a) →
      rgb_finish s false r g b =
        (if skip_ws rest = [41] then
          some ⟨clamp_unit_f32 r, clamp_unit_f32 g, clamp_unit_f32 b, a⟩
        else none)) ∧
    (∀ s rest r g b, s[0]? = some 47 →
      parse_alpha_value (skip_ws (s.drop 1)) = none →
      consume_none (skip_ws (s.drop 1)) = some rest →
      rgb_finish s false r g b =
        (if skip_ws rest = [41] then
          some ⟨clamp_unit_f32 r, clamp_unit_f32 g, clamp_unit_f32 b, NONE⟩
        else none)) := by
  refine ⟨?_, ?_, ?_, ?_, ?_, ?_, ?_, ?_, ?_, ?_, ?_, ?_, ?_⟩
  · intro input rest v h hc
    have step : parse_rgb input =
        match (skip_ws rest)[0]? with
        | some 44 => rgb_legacy_number (skip_ws ((skip_ws rest).drop 1)) (v / 255)
        | _ => rgb_modern (skip_ws rest) (v / 255) := by
      unfold parse_rgb
      rw [h]
    rw [step, hc]
  · intro input rest v h hc
    have step : parse_rgb input =
        match (skip_ws rest)[0]? with
        | some 44 => rgb_legacy_percentage (skip_ws ((skip_ws rest).drop 1)) v
        | _ => rgb_modern (skip_ws rest) v := by
      unfold parse_rgb
      rw [h]
    rw [step, hc]
  · intro s red rest v h h37
    cases rest with
    | nil => simp at h37
    | cons c t =>
      have hc : c = 37 := by simpa using h37
      subst hc
      simp [rgb_legacy_number, h, skip_ws, is_whitespace, consume_byte]
  · intro s red rest v h h37
    have hb : consume_byte rest 37 = none := consume_byte_none.mpr h37
    simp [rgb_legacy_percentage, parse_percentage, h, hb]
  · intro s red rest v h hc
    have hb : consume_byte (skip_ws rest) 44 = none := consume_byte_none.mpr hc
    simp [rgb_legacy_number, h, hb]
  · intro s red rest h
    have hpn := parse_number_none_of_none_kw h
    exact ⟨by simp [rgb_legacy_number, hpn],
      by simp [rgb_legacy_percentage, parse_percentage, hpn]⟩
  · intro s rest h44 hkw
    have hav := parse_alpha_value_none_of_none_kw hkw
    cases s with
    | nil => simp at h44
    | cons c t =>
      have hc : c = 44 := by simpa using h44
      subst hc
      rw [show List.drop 1 (44 :: t) = t from rfl] at hav
      simp [parse_alpha_tail, parse_alpha_sep, hav]
  · intro s rest h
    have hpn := parse_number_none_of_none_kw h
    simp [rgb_modern_channel, parse_number_or_percentage, hpn, h, NONE]
  · intro s h44
    cases s with
    | nil => simp at h44
    | cons c t =>
      have hc : c = 44 := by simpa using h44
      subst hc
      have hpn : parse_number (44 :: t) = none :=
        parse_number_none_head t (by omega) (by omega) (by omega) (digit_none (by omega))
      have hkw : consume_name (44 :: t) [110, 111, 110, 101] = none :=
        consume_name_none_of_head (by decide)
      simp [rgb_modern_channel, parse_number_or_percentage, hpn, consume_none, hkw]
  · intro s r g b h44
    cases s with
    | nil => simp at h44
    | cons c t =>
      have hc : c = 44 := by simpa using h44
      subst hc
      simp [rgb_finish, parse_alpha_tail]
  · intro r g b
    rfl
  · intro s rest a r g b h47 hav
    cases s with
    | nil => simp at h47
    | cons c t =>
      have hc : c = 47 := by simpa using h47
      subst hc
      rw [show List.drop 1 (47 :: t) = t from rfl] at hav
      simp [rgb_finish, parse_alpha_tail, parse_alpha_sep, hav]
  · intro s rest r g b h47 hav hkw
    cases s with
    | nil => simp at h47
    | cons c t =>
      have hc : c = 47 := by simpa using h47
      subst hc
      rw [show List.drop 1 (47 :: t) = t from rfl] at hav hkw
      simp [rgb_finish, parse_alpha_tail, parse_alpha_sep, hav, hkw]

/-- Witness for C5: a legacy tag mismatch (`rgb(1, 2%, …`) fails at the
concrete second-channel input `"2%,3)"`. -/
theorem spec_C5_witness :
    parse_number [50, 37, 44, 51, 41] = some ([37, 44, 51, 41], (2 : ℚ)) ∧
    rgb_legacy_number [50, 37, 44, 51, 41] (1 / 255) = none :=
  ⟨by norm_num [parse_number, consume_number, consume_digits, skip_digits, skip_sign,
      digit, eval_number_token, digits_val],
    spec_C5.2.2.1 [50, 37, 44, 51, 41] (1 / 255) [37, 44, 51, 41] 2
      (by norm_num [parse_number, consume_number, consume_digits, skip_digits, skip_sign,
        digit, eval_number_token, digits_val])
      (by decide)⟩

/-! ## C1: every parsed color lies componentwise in [0,1] -/

set_option maxRecDepth 8192

theorem obind_eq_some {α β : Type} {o : Option α} {f : α → Option β} {b : β} :
    (o >>= f) = some b ↔ ∃ a, o = some a ∧ f a = some b := by
  cases o <;> simp

theorem clamp_unit_bounds (v : ℚ) : 0 ≤ clamp_unit_f32 v ∧ clamp_unit_f32 v ≤ 1 := by
  unfold clamp_unit_f32
  split_ifs <;> constructor <;> linarith

theorem normalize_hue_bounds (v : ℚ) : 0 ≤ normalize_hue v ∧ normalize_hue v < 1 := by
  unfold normalize_hue
  constructor
  · have := Int.floor_le v
    linarith
  · have := Int.lt_floor_add_one v
    push_cast at this
    linarith

theorem from_rgba8_in_unit {r g b a : Nat} (hr : r ≤ 255) (hg : g ≤ 255)
    (hb : b ≤ 255) (ha : a ≤ 255) : srgb_in_unit (Srgb.from_rgba8 r g b a) := by
  unfold srgb_in_unit Srgb.from_rgba8
  refine ⟨by positivity, ?_, by positivity, ?_, by positivity, ?_, by positivity, ?_⟩ <;>
    rw [div_le_one (by norm_num)]
  · exact_mod_cast hr
  · exact_mod_cast hg
  · exact_mod_cast hb
  · exact_mod_cast ha

theorem named_colors_in_unit : ∀ p ∈ named_colors, srgb_in_unit p.2 := by
  intro p hp
  simp only [named_colors, List.mem_cons] at hp
  repeat
    rcases hp with h | hp <;>
      try (subst h; first
        | exact from_rgba8_in_unit (by norm_num) (by norm_num) (by norm_num) (by norm_num)
        | (unfold srgb_in_unit; norm_num))

theorem lookup_color_in_unit {name : List Nat} {tbl : List (List Nat × Srgb)} {c : Srgb}
    (htbl : ∀ p ∈ tbl, srgb_in_unit p.2) (h : lookup_color name tbl = some c) :
    srgb_in_unit c := by
  induction tbl with
  | nil => exact absurd h (by simp [lookup_color])
  | cons p rest ih =>
    obtain ⟨key, color⟩ := p
    unfold lookup_color at h
    split at h
    · exact Option.some_inj.mp h ▸ htbl _ (List.mem_cons_self _ _)
    · exact ih (fun q hq => htbl q (List.mem_cons_of_mem _ hq)) h

theorem parse_named_in_unit {input : List Nat} {c : Srgb}
    (h : parse_named input = some c) : srgb_in_unit c := by
  unfold parse_named at h
  split at h
  · exact absurd h (by simp)
  · exact lookup_color_in_unit named_colors_in_unit h

theorem hex_digit_le {c d : Nat} (h : hex_digit c = some d) : d ≤ 15 := by
  unfold hex_digit at h
  split_ifs at h <;> first
  | (injection h with h2; omega)
  | exact absurd h (by simp)

theorem parse_hex_in_unit {input : List Nat} {c : Srgb}
    (h : parse_hex input = some c) : srgb_in_unit c := by
  rcases input with _ | ⟨a, _ | ⟨b, _ | ⟨x, _ | ⟨d, _ | ⟨e, _ | ⟨f, _ | ⟨g, _ | ⟨hh, _ | ⟨i, rest⟩⟩⟩⟩⟩⟩⟩⟩⟩
  · exact absurd h (by rw [show parse_hex ([] : List Nat) = none from rfl]; simp)
  · exact absurd h (by rw [show parse_hex [a] = none from rfl]; simp)
  · exact absurd h (by rw [show parse_hex [a, b] = none from rfl]; simp)
  · simp only [parse_hex, obind_eq_some] at h
    obtain ⟨d0, h0, d1, h1, d2, h2, hc⟩ := h
    have b0 := hex_digit_le h0
    have b1 := hex_digit_le h1
    have b2 := hex_digit_le h2
    exact Option.some_inj.mp hc ▸
      from_rgba8_in_unit (by omega) (by omega) (by omega) (by omega)
  · simp only [parse_hex, obind_eq_some] at h
    obtain ⟨d0, h0, d1, h1, d2, h2, d3, h3, hc⟩ := h
    have b0 := hex_digit_le h0
    have b1 := hex_digit_le h1
    have b2 := hex_digit_le h2
    have b3 := hex_digit_le h3
    exact Option.some_inj.mp hc ▸
      from_rgba8_in_unit (by omega) (by omega) (by omega) (by omega)
  · exact absurd h (by rw [show parse_hex [a, b, x, d, e] = none from rfl]; simp)
  · simp only [parse_hex, obind_eq_some] at h
    obtain ⟨d0, h0, d1, h1, d2, h2, d3, h3, d4, h4, d5, h5, hc⟩ := h
    have b0 := hex_digit_le h0
    have b1 := hex_digit_le h1
    have b2 := hex_digit_le h2
    have b3 := hex_digit_le h3
    have b4 := hex_digit_le h4
    have b5 := hex_digit_le h5
    exact Option.some_inj.mp hc ▸
      from_rgba8_in_unit (by omega) (by omega) (by omega) (by omega)
  · exact absurd h (by rw [show parse_hex [a, b, x, d, e, f, g] = none from rfl]; simp)
  · simp only [parse_hex, obind_eq_some] at h
    obtain ⟨d0, h0, d1, h1, d2, h2, d3, h3, d4, h4, d5, h5, d6, h6, d7, h7, hc⟩ := h
    have b0 := hex_digit_le h0
    have b1 := hex_digit_le h1
    have b2 := hex_digit_le h2
    have b3 := hex_digit_le h3
    have b4 := hex_digit_le h4
    have b5 := hex_digit_le h5
    have b6 := hex_digit_le h6
    have b7 := hex_digit_le h7
    exact Option.some_inj.mp hc ▸
      from_rgba8_in_unit (by omega) (by omega) (by omega) (by omega)
  · exact absurd h (by
      rw [show parse_hex (a :: b :: x :: d :: e :: f :: g :: hh :: i :: rest) = none
        from rfl]
      simp)

theorem parse_alpha_value_bounds {s rest : List Nat} {a : ℚ}
    (h : parse_alpha_value s = some (rest, a)) : 0 ≤ a ∧ a ≤ 1 := by
  unfold parse_alpha_value at h
  rw [obind_eq_some] at h
  obtain ⟨⟨r, np⟩, h1, h2⟩ := h
  simp only [Option.some_inj, Prod.mk.injEq] at h2
  obtain ⟨-, h3⟩ := h2
  exact h3 ▸ clamp_unit_bounds _

theorem parse_alpha_sep_bounds {s rest : List Nat} {legacy : Bool} {a : ℚ}
    (h : parse_alpha_sep s legacy = some (rest, a)) : 0 ≤ a ∧ a ≤ 1 := by
  cases hx : parse_alpha_value (skip_ws (s.drop 1)) with
  | some p =>
    obtain ⟨r, a2⟩ := p
    have e : parse_alpha_sep s legacy = some (skip_ws r, a2) := by
      simp only [parse_alpha_sep, hx]
    rw [e] at h
    have h2 := Option.some_inj.mp h
    rw [Prod.mk.injEq] at h2
    exact h2.2 ▸ parse_alpha_value_bounds hx
  | none =>
    rw [List.drop_one] at hx
    cases legacy with
    | true =>
      have e : parse_alpha_sep s true = none := by
        simp [parse_alpha_sep, hx]
      rw [e] at h
      exact absurd h (by simp)
    | false =>
      cases hy : consume_none (skip_ws s.tail) with
      | some r =>
        have e : parse_alpha_sep s false = some (skip_ws r, NONE) := by
          simp [parse_alpha_sep, hx, hy]
        rw [e] at h
        have h2 := Option.some_inj.mp h
        rw [Prod.mk.injEq] at h2
        rw [← h2.2]
        norm_num [NONE]
      | none =>
        have e : parse_alpha_sep s false = none := by
          simp [parse_alpha_sep, hx, hy]
        rw [e] at h
        exact absurd h (by simp)

theorem parse_alpha_tail_bounds {s rest : List Nat} {legacy : Bool} {a : ℚ}
    (h : parse_alpha_tail s legacy = some (rest, a)) : 0 ≤ a ∧ a ≤ 1 := by
  unfold parse_alpha_tail at h
  split at h
  · exact parse_alpha_sep_bounds h
  · exact parse_alpha_sep_bounds h
  · have h2 := Option.some_inj.mp h
    rw [Prod.mk.injEq] at h2
    rw [← h2.2]
    norm_num

theorem rgb_finish_in_unit {s : List Nat} {legacy : Bool} {r g b : ℚ} {c : Srgb}
    (h : rgb_finish s legacy r g b = some c) : srgb_in_unit c := by
  unfold rgb_finish at h
  rw [obind_eq_some] at h
  obtain ⟨⟨rest, a⟩, h1, h2⟩ := h
  have h2' : (if rest = [41] then
      some (Srgb.mk (clamp_unit_f32 r) (clamp_unit_f32 g) (clamp_unit_f32 b) a)
    else none) = some c := h2
  split at h2'
  · obtain ⟨ha0, ha1⟩ := parse_alpha_tail_bounds h1
    rw [← Option.some_inj.mp h2']
    exact ⟨(clamp_unit_bounds r).1, (clamp_unit_bounds r).2, (clamp_unit_bounds g).1,
      (clamp_unit_bounds g).2, (clamp_unit_bounds b).1, (clamp_unit_bounds b).2, ha0, ha1⟩
  · exact absurd h2' (by simp)

theorem rgb_legacy_number_in_unit {s : List Nat} {red : ℚ} {c : Srgb}
    (h : rgb_legacy_number s red = some c) : srgb_in_unit c := by
  unfold rgb_legacy_number at h
  simp only [obind_eq_some] at h
  obtain ⟨⟨s1, green⟩, h1, s2, h2, ⟨s3, blue⟩, h3, hfin⟩ := h
  exact rgb_finish_in_unit hfin

theorem rgb_legacy_percentage_in_unit {s : List Nat} {red : ℚ} {c : Srgb}
    (h : rgb_legacy_percentage s red = some c) : srgb_in_unit c := by
  unfold rgb_legacy_percentage at h
  simp only [obind_eq_some] at h
  obtain ⟨⟨s1, green⟩, h1, s2, h2, ⟨s3, blue⟩, h3, hfin⟩ := h
  exact rgb_finish_in_unit hfin

theorem rgb_modern_in_unit {s : List Nat} {red : ℚ} {c : Srgb}
    (h : rgb_modern s red = some c) : srgb_in_unit c := by
  unfold rgb_modern at h
  simp only [obind_eq_some] at h
  obtain ⟨⟨s1, green⟩, h1, ⟨s2, blue⟩, h2, hfin⟩ := h
  exact rgb_finish_in_unit hfin

theorem parse_rgb_in_unit {s : List Nat} {c : Srgb} (h : parse_rgb s = some c) :
    srgb_in_unit c := by
  cases hx : parse_number_or_percentage s with
  | some p =>
    obtain ⟨rest, red⟩ := p
    cases red with
    | Number v =>
      have e : parse_rgb s =
          match (skip_ws rest)[0]? with
          | some 44 => rgb_legacy_number (skip_ws ((skip_ws rest).drop 1)) (v / 255)
          | _ => rgb_modern (skip_ws rest) (v / 255) := by
        unfold parse_rgb
        rw [hx]
      rw [e] at h
      split at h
      · exact rgb_legacy_number_in_unit h
      · exact rgb_modern_in_unit h
    | Percentage v =>
      have e : parse_rgb s =
          match (skip_ws rest)[0]? with
          | some 44 => rgb_legacy_percentage (skip_ws ((skip_ws rest).drop 1)) v
          | _ => rgb_modern (skip_ws rest) v := by
        unfold parse_rgb
        rw [hx]
      rw [e] at h
      split at h
      · exact rgb_legacy_percentage_in_unit h
      · exact rgb_modern_in_unit h
  | none =>
    have e : parse_rgb s =
        match consume_none s with
        | some rest => rgb_modern (skip_ws rest) NONE
        | none => none := by
      unfold parse_rgb
      rw [hx]
    rw [e] at h
    split at h
    · exact rgb_modern_in_unit h
    · exact absurd h (by simp)

theorem hsl_hue_to_rgb_bounds {t1 t2 h6 : ℚ} (h0 : 0 ≤ t1) (h12 : t1 ≤ t2)
    (h21 : t2 ≤ 1) (hh : 0 ≤ h6) :
    0 ≤ hsl_hue_to_rgb t1 t2 h6 ∧ hsl_hue_to_rgb t1 t2 h6 ≤ 1 := by
  unfold hsl_hue_to_rgb
  split_ifs with hA hB hC
  · constructor <;> nlinarith
  · constructor <;> linarith
  · constructor <;> nlinarith
  · constructor <;> linarith

theorem srgb_of_hsla_in_unit {h s l a : ℚ} (hh0 : 0 ≤ h) (hh1 : h < 1)
    (hs0 : 0 ≤ s) (hs1 : s ≤ 1) (hl0 : 0 ≤ l) (hl1 : l ≤ 1)
    (ha0 : 0 ≤ a) (ha1 : a ≤ 1) :
    srgb_in_unit (srgb_of_hsla ⟨h, s, l, a⟩) := by
  unfold srgb_in_unit srgb_of_hsla
  dsimp only
  set t2 := if l ≤ 1/2 then l * (s + 1) else l + s - l * s with ht2
  set t1 := l * 2 - t2 with ht1
  have hkey : 0 ≤ t1 ∧ t1 ≤ t2 ∧ t2 ≤ 1 := by
    rw [ht1, ht2]
    split_ifs <;> refine ⟨?_, ?_, ?_⟩ <;> nlinarith
  have hr6 : 0 ≤ (if h * 6 + 2 < 6 then h * 6 + 2 else h * 6 - 4) := by
    split_ifs <;> linarith
  have hg6 : 0 ≤ h * 6 := by linarith
  have hb6 : 0 ≤ (if h * 6 - 2 ≥ 0 then h * 6 - 2 else h * 6 + 4) := by
    split_ifs <;> linarith
  exact ⟨(hsl_hue_to_rgb_bounds hkey.1 hkey.2.1 hkey.2.2 hr6).1,
    (hsl_hue_to_rgb_bounds hkey.1 hkey.2.1 hkey.2.2 hr6).2,
    (hsl_hue_to_rgb_bounds hkey.1 hkey.2.1 hkey.2.2 hg6).1,
    (hsl_hue_to_rgb_bounds hkey.1 hkey.2.1 hkey.2.2 hg6).2,
    (hsl_hue_to_rgb_bounds hkey.1 hkey.2.1 hkey.2.2 hb6).1,
    (hsl_hue_to_rgb_bounds hkey.1 hkey.2.1 hkey.2.2 hb6).2, ha0, ha1⟩

theorem hwb_hue_to_rgb_bounds {h6 : ℚ} (hh : 0 ≤ h6) :
    0 ≤ hwb_hue_to_rgb h6 ∧ hwb_hue_to_rgb h6 ≤ 1 := by
  unfold hwb_hue_to_rgb
  split_ifs <;> constructor <;> linarith

theorem srgb_of_hwba_in_unit {h w b a : ℚ} (hh0 : 0 ≤ h) (hw0 : 0 ≤ w) (hw1 : w ≤ 1)
    (hb0 : 0 ≤ b) (hb1 : b ≤ 1) (ha0 : 0 ≤ a) (ha1 : a ≤ 1) :
    srgb_in_unit (srgb_of_hwba ⟨h, w, b, a⟩) := by
  by_cases hwb : w + b ≥ 1
  · have e : srgb_of_hwba ⟨h, w, b, a⟩ =
        ⟨w / (w + b), w / (w + b), w / (w + b), a⟩ := by
      unfold srgb_of_hwba
      dsimp only
      rw [if_pos hwb]
    rw [e]
    have hpos : 0 < w + b := by linarith
    have hgray0 : 0 ≤ w / (w + b) := by positivity
    have hgray1 : w / (w + b) ≤ 1 := by
      rw [div_le_one hpos]
      linarith
    exact ⟨hgray0, hgray1, hgray0, hgray1, hgray0, hgray1, ha0, ha1⟩
  · have e : srgb_of_hwba ⟨h, w, b, a⟩ =
        ⟨hwb_hue_to_rgb (if h * 6 + 2 < 6 then h * 6 + 2 else h * 6 - 4) * (1 - w - b) + w,
         hwb_hue_to_rgb (h * 6) * (1 - w - b) + w,
         hwb_hue_to_rgb (if h * 6 - 2 ≥ 0 then h * 6 - 2 else h * 6 + 4) * (1 - w - b) + w,
         a⟩ := by
      unfold srgb_of_hwba
      dsimp only
      rw [if_neg hwb]
    rw [e]
    have hx0 : 0 < 1 - w - b := by
      rw [ge_iff_le, not_le] at hwb
      linarith
    have key : ∀ h6 : ℚ, 0 ≤ h6 →
        0 ≤ hwb_hue_to_rgb h6 * (1 - w - b) + w ∧
          hwb_hue_to_rgb h6 * (1 - w - b) + w ≤ 1 := by
      intro h6 hh6
      obtain ⟨k0, k1⟩ := hwb_hue_to_rgb_bounds hh6
      constructor
      · nlinarith
      · nlinarith
    have hr6 : 0 ≤ (if h * 6 + 2 < 6 then h * 6 + 2 else h * 6 - 4) := by
      split_ifs <;> linarith
    have hg6 : 0 ≤ h * 6 := by linarith
    have hb6 : 0 ≤ (if h * 6 - 2 ≥ 0 then h * 6 - 2 else h * 6 + 4) := by
      split_ifs <;> linarith
    exact ⟨(key _ hr6).1, (key _ hr6).2, (key _ hg6).1, (key _ hg6).2,
      (key _ hb6).1, (key _ hb6).2, ha0, ha1⟩

theorem parse_hsl_in_unit {s : List Nat} {c : Srgb} (h : parse_hsl s = some c) :
    srgb_in_unit c := by
  unfold parse_hsl at h
  simp only [obind_eq_some] at h
  obtain ⟨⟨i1, hue, legacy⟩, h1, ⟨i2, sat, light⟩, h2, ⟨i3, alpha⟩, h3, hfin⟩ := h
  split at hfin
  · rw [← Option.some_inj.mp hfin]
    obtain ⟨ha0, ha1⟩ := parse_alpha_tail_bounds h3
    exact srgb_of_hsla_in_unit (normalize_hue_bounds hue).1 (normalize_hue_bounds hue).2
      (clamp_unit_bounds sat).1 (clamp_unit_bounds sat).2
      (clamp_unit_bounds light).1 (clamp_unit_bounds light).2 ha0 ha1
  · exact absurd hfin (by simp)

theorem parse_hwb_in_unit {s : List Nat} {c : Srgb} (h : parse_hwb s = some c) :
    srgb_in_unit c := by
  unfold parse_hwb at h
  simp only [obind_eq_some] at h
  obtain ⟨⟨i1, hue⟩, h1, ⟨i2, w⟩, h2, ⟨i3, b1⟩, h3, ⟨i4, alpha⟩, h4, hfin⟩ := h
  split at hfin
  · rw [← Option.some_inj.mp hfin]
    obtain ⟨ha0, ha1⟩ := parse_alpha_tail_bounds h4
    exact srgb_of_hwba_in_unit (normalize_hue_bounds hue).1
      (clamp_unit_bounds w).1 (clamp_unit_bounds w).2
      (clamp_unit_bounds b1).1 (clamp_unit_bounds b1).2 ha0 ha1
  · exact absurd hfin (by simp)

/-- **C1.** Every color returned by the parse entry point has all four
components in [0,1] (and, in this exact-rational model, each component is a
genuine number), on every production including the unclamped hsl()/hwb()
converter outputs. -/
theorem spec_C1 (input : List Nat) (c : Srgb) (h : parse_css_color input = some c) :
    srgb_in_unit c := by
  unfold parse_css_color at h
  split at h
  · exact parse_hex_in_unit h
  · split at h
    · exact parse_rgb_in_unit h
    · split at h
      · exact parse_rgb_in_unit h
      · split at h
        · exact parse_hsl_in_unit h
        · split at h
          · exact parse_hsl_in_unit h
          · split at h
            · exact parse_hwb_in_unit h
            · exact parse_named_in_unit h

/-- Witness for C1 at the concrete input `"red"`. -/
theorem spec_C1_witness : srgb_in_unit (Srgb.from_rgb8 255 0 0) :=
  spec_C1 (bs "red") (Srgb.from_rgb8 255 0 0)
    (by rw [show bs "red" = [114, 101, 100] by decide]; rfl)
